import Mathlib

/-!
Verification development for the `crypto_candles` repository.

The repository normalizes OHLCV candlestick data across nine cryptocurrency
exchange adapters (Binance, Bitget, Bybit, Crypto.com, Foxbit, Mercado
Bitcoin, MEXC, Novadax, OKX) behind one shared contract
(`src/crypto_candles/exchanges/*.py`, `src/crypto_candles/models/candle.py`).

Modelling conventions of this shallow embedding:
  * JSON payloads returned by the HTTP layer are modelled by `JValue`.
  * Python floats are modelled as exact rationals `ℚ`; `datetime` values are
    modelled as rational epoch seconds (the code only ever builds them with
    `datetime.fromtimestamp` and reads them back with `.isoformat()`/
    `.timestamp()`).
  * Python exceptions are modelled by the error type `PyExc` threaded through
    `Except`; every adapter-specific error class (`BinanceAPIError`,
    `CryptoComAPIError`, ...) is `PyExc.apiError tag msg` with the adapter's
    tag string.
  * The HTTP transport (`requests.request`) is a parameter
    `http : Request → Except String JValue`; a `.error msg` models a
    `requests.exceptions.RequestException` with message `msg`.
-/

/-- A JSON value as produced by `response.json()`. -/
inductive JValue where
  | null
  | bool (b : Bool)
  | num (q : ℚ)
  | str (s : String)
  | arr (items : List JValue)
  | obj (fields : List (String × JValue))

/-- Python exception kinds relevant to the adapters.  `apiError tag msg`
models the adapter-specific exception classes (`BinanceAPIError` has tag
`"binance"`, `CryptoComAPIError` has tag `"crypto_com"`, and so on). -/
inductive PyExc where
  | keyError (k : String)
  | indexError
  | typeError (m : String)
  | valueError (m : String)
  | attributeError (m : String)
  | apiError (exchange : String) (m : String)
deriving DecidableEq, Repr

/-- One HTTP request as issued via `requests.request(method, url, params=params)`. -/
structure Request where
  method : String
  url : String
  params : List (String × JValue)

/-- The HTTP transport: maps a request to a JSON body, or to the message of a
`requests.exceptions.RequestException`. -/
abbrev Http := Request → Except String JValue

/-! ## Python string primitives (modelled on code-point lists) -/

/-- Python string comparison `a <= b`: lexicographic on Unicode code points. -/
def lexLe : List Char → List Char → Bool
  | [], _ => true
  | _ :: _, [] => false
  | a :: as, b :: bs =>
      if a.toNat < b.toNat then true
      else if b.toNat < a.toNat then false
      else lexLe as bs

/-- Python `a <= b` on strings, as a proposition. -/
def strLeP (a b : String) : Prop := lexLe a.data b.data = true

instance : DecidableRel strLeP := fun a b => by unfold strLeP; infer_instance

/-- Python `sorted(strings)`: a stable sort by code-point order. -/
def pySorted (l : List String) : List String := l.insertionSort strLeP

/-- One step of Python `str.replace` on code-point lists, with explicit fuel
(the fuel is always instantiated with the length of the subject, which
suffices because every step consumes at least one character). -/
def replaceFuel (pat rep : List Char) : Nat → List Char → List Char
  | _, [] => []
  | 0, s => s
  | fuel + 1, c :: cs =>
      if pat.isPrefixOf (c :: cs) then
        rep ++ replaceFuel pat rep fuel (List.drop (pat.length - 1) cs)
      else
        c :: replaceFuel pat rep fuel cs

/-- Python `s.replace(pat, rep)` (all occurrences, left to right).  The
adapters only ever call it with a non-empty pattern; for an empty pattern this
model returns `s` unchanged. -/
def pyReplace (s pat rep : String) : String :=
  if pat.data.isEmpty then s
  else ⟨replaceFuel pat.data rep.data s.data.length s.data⟩

/-- Python `s.upper()` (restricted to ASCII, which is all the adapters use). -/
def pyUpper (s : String) : String := ⟨s.data.map Char.toUpper⟩

/-- Python `s.lower()` (restricted to ASCII, which is all the adapters use). -/
def pyLower (s : String) : String := ⟨s.data.map Char.toLower⟩

/-- Python `s.endswith(suffix)`. -/
def pyEndsWith (s suffix : String) : Bool := suffix.data.isSuffixOf s.data

/-- Digits of a decimal literal read into a natural accumulator; `none` when a
non-digit occurs. -/
def digitsToNat : List Char → Nat → Option Nat
  | [], acc => some acc
  | c :: cs, acc =>
      if c.isDigit then digitsToNat cs (acc * 10 + (c.toNat - 48))
      else none

/-- Python `float(s)` on a plain decimal string `[+|-]digits[.digits]`.
`none` models the `ValueError` Python raises for anything else.  (The
scientific-notation and `inf`/`nan` forms accepted by Python never occur in
the numeric payload fields this repository parses.) -/
def parseFloat (s : List Char) : Option ℚ :=
  let core : List Char → Option ℚ := fun cs =>
    match cs.splitOn '.' with
    | [intPart] =>
        if intPart.isEmpty then none
        else (digitsToNat intPart 0).map (fun n => (n : ℚ))
    | [intPart, fracPart] =>
        if intPart.isEmpty ∧ fracPart.isEmpty then none
        else
          match digitsToNat intPart 0, digitsToNat fracPart 0 with
          | some i, some f => some ((i : ℚ) + (f : ℚ) / (10 : ℚ) ^ fracPart.length)
          | _, _ => none
    | _ => none
  match s with
  | '-' :: rest => (core rest).map (fun q => -q)
  | '+' :: rest => core rest
  | _ => core s

/-- Python `int(s)` on a plain integer string `[+|-]digits`; `none` models the
`ValueError` raised for anything else (including `"1.0"`). -/
def parseInt (s : List Char) : Option Int :=
  match s with
  | '-' :: rest =>
      if rest.isEmpty then none else (digitsToNat rest 0).map (fun n => -(n : Int))
  | '+' :: rest =>
      if rest.isEmpty then none else (digitsToNat rest 0).map (fun n => (n : Int))
  | _ =>
      if s.isEmpty then none else (digitsToNat s 0).map (fun n => (n : Int))

/-- Python `int(x)` truncation of a float toward zero. -/
def truncRat (q : ℚ) : Int := if 0 ≤ q then ⌊q⌋ else -⌊-q⌋

/-! ## Exception plumbing -/

/-- Sequencing of fallible Python expressions (exception propagation). -/
def ebind {α β : Type} : Except PyExc α → (α → Except PyExc β) → Except PyExc β
  | .error e, _ => .error e
  | .ok a, f => f a

/-- A Python `for`-loop that builds a list, one output element per input
element, aborting at the first exception (the shape of every candle-building
and pair-building loop in the adapters). -/
def emap {α β : Type} (f : α → Except PyExc β) : List α → Except PyExc (List β)
  | [] => .ok []
  | x :: xs => ebind (f x) fun y => ebind (emap f xs) fun ys => .ok (y :: ys)

/-- Python `str(e)` for an exception `e` (the text interpolated by the
adapters' `f"...: {str(e)}"` wrappers).  `str` of a `KeyError` is the `repr`
of the missing key. -/
def excText : PyExc → String
  | .keyError k => "\x27" ++ k ++ "\x27"
  | .indexError => "list index out of range"
  | .typeError m => m
  | .valueError m => m
  | .attributeError m => m
  | .apiError _ m => m

/-- The `try: ... except Exception as e: raise XxxAPIError(pre + str(e))`
pattern shared by every adapter operation (except Binance's
`get_supported_pairs`, see `catchApiOnly`). -/
def catchAll {α : Type} (tag pre : String) : Except PyExc α → Except PyExc α
  | .ok a => .ok a
  | .error e => .error (.apiError tag (pre ++ excText e))

/-- The `try: ... except BinanceAPIError as e: raise BinanceAPIError(pre + str(e))`
pattern of `BinanceExchange.get_supported_pairs`: only the adapter's own error
class is caught; every other exception escapes unchanged. -/
def catchApiOnly {α : Type} (tag pre : String) : Except PyExc α → Except PyExc α
  | .ok a => .ok a
  | .error (.apiError t m) =>
      if t == tag then .error (.apiError tag (pre ++ m))
      else .error (.apiError t m)
  | .error e => .error e

/-! ## Python built-ins on JSON values -/

/-- `v[k]` for a string key `k` (Python subscription). -/
def jGetKey (v : JValue) (k : String) : Except PyExc JValue :=
  match v with
  | .obj fields =>
      match fields.lookup k with
      | some x => .ok x
      | none => .error (.keyError k)
  | .arr _ => .error (.typeError "list indices must be integers or slices, not str")
  | .str _ => .error (.typeError "string indices must be integers")
  | _ => .error (.typeError "object is not subscriptable")

/-- `v[i]` for a non-negative integer index `i` (Python subscription). -/
def jIndex (v : JValue) (i : Nat) : Except PyExc JValue :=
  match v with
  | .arr xs =>
      match xs.get? i with
      | some x => .ok x
      | none => .error .indexError
  | .str s =>
      match s.data.get? i with
      | some c => .ok (.str ⟨[c]⟩)
      | none => .error .indexError
  | .obj _ => .error (.keyError (toString i))
  | _ => .error (.typeError "object is not subscriptable")

/-- `for x in v`: Python iteration (a dict yields its keys, a string its
characters). -/
def jIter (v : JValue) : Except PyExc (List JValue) :=
  match v with
  | .arr xs => .ok xs
  | .obj fields => .ok (fields.map (fun p => .str p.1))
  | .str s => .ok (s.data.map (fun c => .str ⟨[c]⟩))
  | _ => .error (.typeError "object is not iterable")

/-- `v.get(k, default)` (only dictionaries have `.get`). -/
def jGet (v : JValue) (k : String) (default : JValue) : Except PyExc JValue :=
  match v with
  | .obj fields => .ok ((fields.lookup k).getD default)
  | _ => .error (.attributeError "object has no attribute get")

/-- Python `len(v)`. -/
def pyLen (v : JValue) : Except PyExc Nat :=
  match v with
  | .arr xs => .ok xs.length
  | .obj fields => .ok fields.length
  | .str s => .ok s.data.length
  | _ => .error (.typeError "object has no len")

/-- Python `float(v)`. -/
def pyFloat (v : JValue) : Except PyExc ℚ :=
  match v with
  | .num q => .ok q
  | .bool b => .ok (if b then 1 else 0)
  | .str s =>
      match parseFloat s.data with
      | some q => .ok q
      | none => .error (.valueError ("could not convert string to float: " ++ s))
  | _ => .error (.typeError "float() argument must be a string or a real number")

/-- Python `int(v)`. -/
def pyInt (v : JValue) : Except PyExc Int :=
  match v with
  | .num q => .ok (truncRat q)
  | .bool b => .ok (if b then 1 else 0)
  | .str s =>
      match parseInt s.data with
      | some i => .ok i
      | none => .error (.valueError ("invalid literal for int() with base 10: " ++ s))
  | _ => .error (.typeError "int() argument must be a string or a real number")

/-- Python `v / 1000` (true division of a JSON number by the literal 1000, as
used on raw millisecond timestamps). -/
def jDiv1000 (v : JValue) : Except PyExc ℚ :=
  match v with
  | .num q => .ok (q / 1000)
  | .bool b => .ok ((if b then (1 : ℚ) else 0) / 1000)
  | _ => .error (.typeError "unsupported operand type(s) for /")

/-- Python `v.endswith(suffix)` (an `AttributeError` unless `v` is a string). -/
def jEndsWith (v : JValue) (suffix : String) : Except PyExc Bool :=
  match v with
  | .str s => .ok (pyEndsWith s suffix)
  | _ => .error (.attributeError "object has no attribute endswith")

/-- Python `v.replace(pat, rep)` (an `AttributeError` unless `v` is a string). -/
def jReplace (v : JValue) (pat rep : String) : Except PyExc String :=
  match v with
  | .str s => .ok (pyReplace s pat rep)
  | _ => .error (.attributeError "object has no attribute replace")

/-- Python `v == lit` for a string literal `lit` (never raises; a non-string
value simply compares unequal). -/
def jEqStr (v : JValue) (lit : String) : Bool :=
  match v with
  | .str s => s == lit
  | _ => false

/-- Rendering used by f-string interpolation `f"{v}-..."`.  The adapters only
interpolate catalog fields; for the container cases, which no adapter ever
reaches with a well-formed or claim-relevant payload, the rendering is
abbreviated (Python would render element reprs). -/
def jStr (v : JValue) : String :=
  match v with
  | .str s => s
  | .null => "None"
  | .bool true => "True"
  | .bool false => "False"
  | .num q => if q.den = 1 then toString q.num ++ ".0" else toString q.num ++ "/" ++ toString q.den
  | .arr _ => "[...]"
  | .obj _ => "\x7b...\x7d"

/-! ## The canonical Candle record (`models/candle.py`) -/

/-- Gregorian calendar date from a day count relative to 1970-01-01
(Howard Hinnant's civil-from-days algorithm, used to model
`datetime.isoformat`). -/
def civilFromDays (z0 : Int) : Int × Nat × Nat :=
  let z := z0 + 719468
  let era := Int.fdiv z 146097
  let doe := (z - era * 146097).toNat
  let yoe := (doe - doe / 1460 + doe / 36524 - doe / 146096) / 365
  let y := (yoe : Int) + era * 400
  let doy := doe - (365 * yoe + yoe / 4 - yoe / 100)
  let mp := (5 * doy + 2) / 153
  let d := doy - (153 * mp + 2) / 5 + 1
  let m := if mp < 10 then mp + 3 else mp - 9
  (if m ≤ 2 then y + 1 else y, m, d)

/-- Zero-padded decimal rendering of a natural number. -/
def padNum (width n : Nat) : String :=
  let s := toString n
  ⟨List.replicate (width - s.data.length) '0'⟩ ++ s

/-- `datetime.isoformat()` for a timestamp modelled as rational epoch seconds
(naive calendar fields; microseconds appended only when non-zero, as in
Python). -/
def isoformat (t : ℚ) : String :=
  let totalMicro : Int := ⌊t * 1000000⌋
  let micro : Nat := (totalMicro % 1000000).toNat
  let secs : Int := Int.fdiv totalMicro 1000000
  let days : Int := Int.fdiv secs 86400
  let sod : Nat := (secs - days * 86400).toNat
  let ymd := civilFromDays days
  let datePart :=
    padNum 4 ymd.1.toNat ++ "-" ++ padNum 2 ymd.2.1 ++ "-" ++ padNum 2 ymd.2.2
  let timePart :=
    padNum 2 (sod / 3600) ++ ":" ++ padNum 2 (sod % 3600 / 60) ++ ":" ++ padNum 2 (sod % 60)
  datePart ++ "T" ++ timePart ++ (if micro = 0 then "" else "." ++ padNum 6 micro)

/-- `Candle`: one OHLCV observation (`models/candle.py`).  The timestamp is
rational epoch seconds; prices and volumes are exact rationals standing for
the source's floats. -/
structure Candle where
  timestamp : ℚ
  «open» : ℚ
  high : ℚ
  low : ℚ
  close : ℚ
  volume : ℚ
  symbol : String
  exchange : String
  timeframe : String
  quote_volume : Option ℚ := none
deriving DecidableEq, Repr

/-- `Candle.to_dict`: the JSON-safe field map, with the timestamp rendered by
`isoformat` and `quote_volume` present-or-null. -/
def Candle.to_dict (c : Candle) : List (String × JValue) :=
  [("timestamp", .str (isoformat c.timestamp)),
   ("open", .num c.«open»),
   ("high", .num c.high),
   ("low", .num c.low),
   ("close", .num c.close),
   ("volume", .num c.volume),
   ("symbol", .str c.symbol),
   ("exchange", .str c.exchange),
   ("timeframe", .str c.timeframe),
   ("quote_volume", match c.quote_volume with | some q => .num q | none => .null)]

/-- All payload-derived numeric fields of one candle, in the order the source
evaluates them: timestamp, open, high, low, close, volume, quote_volume. -/
structure RowFields where
  timestamp : ℚ
  «open» : ℚ
  high : ℚ
  low : ℚ
  close : ℚ
  volume : ℚ
  quote_volume : ℚ
deriving DecidableEq, Repr

/-- The `Candle(...)` constructor call shared by all nine `get_candles`
loops: payload-derived numbers plus the request's `symbol`/`timeframe` and
the adapter's fixed `exchange` literal. -/
def buildCandle (symbol exchange timeframe : String) (f : RowFields) : Candle :=
  { timestamp := f.timestamp
    «open» := f.«open»
    high := f.high
    low := f.low
    close := f.close
    volume := f.volume
    symbol := symbol
    exchange := exchange
    timeframe := timeframe
    quote_volume := some f.quote_volume }

/-- The `[... for x in rows if cond(x)]` comprehension / append-loop shape
shared by the `get_supported_pairs` implementations: evaluate the condition on
every row, evaluate the pair expression only on rows that pass. -/
def collectPairs (cond : JValue → Except PyExc Bool) (mk : JValue → Except PyExc String) :
    List JValue → Except PyExc (List String)
  | [] => .ok []
  | r :: rs =>
      ebind (cond r) fun keep =>
      if keep then
        ebind (mk r) fun p =>
        ebind (collectPairs cond mk rs) fun ps => .ok (p :: ps)
      else
        collectPairs cond mk rs

/-! ## Binance adapter (`exchanges/binance.py`) -/

def BinanceExchange._supported_timeframes : List (String × String) :=
  [("1m", "1m"), ("3m", "3m"), ("5m", "5m"), ("15m", "15m"), ("30m", "30m"),
   ("1h", "1h"), ("2h", "2h"), ("4h", "4h"), ("6h", "6h"), ("8h", "8h"),
   ("12h", "12h"), ("1d", "1d"), ("3d", "3d"), ("1w", "1w"), ("1M", "1M")]

/-- Binance uses the same timeframe format as the canonical one: identity,
no table lookup, no rejection. -/
def BinanceExchange._convert_timeframe (timeframe : String) : String := timeframe

/-- Convert from BTC-BRL to BTCBRL. -/
def BinanceExchange._convert_symbol (symbol : String) : String :=
  pyUpper (pyReplace symbol "-" "")

def BinanceExchange._make_request (http : Http) (method endpoint : String)
    (params : List (String × JValue)) : Except PyExc JValue :=
  match http ⟨method, "https://api.binance.com/api/v3/" ++ endpoint, params⟩ with
  | .ok v => .ok v
  | .error msg => .error (.apiError "binance" ("API request failed: " ++ msg))

/-- The query parameters of the `klines` request, exactly as the source
builds them. -/
def BinanceExchange.klines_params (binance_symbol binance_timeframe : String)
    (start_ms end_ms : Int) : List (String × JValue) :=
  [("symbol", .str binance_symbol), ("interval", .str binance_timeframe),
   ("startTime", .num (start_ms : ℚ)), ("endTime", .num (end_ms : ℚ))]

/-- One raw kline row `candle_data` read in source order:
`candle_data[0] / 1000`, then `float` of indices 1..5 and 7. -/
def BinanceExchange.row_fields (cd : JValue) : Except PyExc RowFields :=
  ebind (jIndex cd 0) fun x0 => ebind (jDiv1000 x0) fun ts =>
  ebind (jIndex cd 1) fun x1 => ebind (pyFloat x1) fun o =>
  ebind (jIndex cd 2) fun x2 => ebind (pyFloat x2) fun h =>
  ebind (jIndex cd 3) fun x3 => ebind (pyFloat x3) fun l =>
  ebind (jIndex cd 4) fun x4 => ebind (pyFloat x4) fun c =>
  ebind (jIndex cd 5) fun x5 => ebind (pyFloat x5) fun v =>
  ebind (jIndex cd 7) fun x7 => ebind (pyFloat x7) fun qv =>
  .ok ⟨ts, o, h, l, c, v, qv⟩

def BinanceExchange.get_candles (http : Http) (symbol timeframe : String)
    (start_date end_date : ℚ) : Except PyExc (List Candle) :=
  catchAll "binance" "Error getting candles from Binance: " (
    let binance_timeframe := BinanceExchange._convert_timeframe timeframe
    let binance_symbol := BinanceExchange._convert_symbol symbol
    let start_ms := truncRat (start_date * 1000)
    let end_ms := truncRat (end_date * 1000)
    ebind (BinanceExchange._make_request http "GET" "klines"
      (BinanceExchange.klines_params binance_symbol binance_timeframe start_ms end_ms)) fun response =>
    ebind (jIter response) fun rows =>
    emap (fun cd => ebind (BinanceExchange.row_fields cd) fun f =>
      .ok (buildCandle symbol "binance" timeframe f)) rows)

/-- Comprehension condition: `symbol["symbol"].endswith("BRL") and
symbol["status"] == "TRADING"` (short-circuiting). -/
def BinanceExchange.pair_cond (row : JValue) : Except PyExc Bool :=
  ebind (jGetKey row "symbol") fun s =>
  ebind (jEndsWith s "BRL") fun b =>
  if b then ebind (jGetKey row "status") fun st => .ok (jEqStr st "TRADING")
  else .ok false

/-- Comprehension value: `symbol["symbol"].replace("BRL", "-BRL")`. -/
def BinanceExchange.pair_value (row : JValue) : Except PyExc String :=
  ebind (jGetKey row "symbol") fun s => jReplace s "BRL" "-BRL"

/-- `get_supported_pairs`; note the handler is `except BinanceAPIError`,
not `except Exception` — hence `catchApiOnly`. -/
def BinanceExchange.get_supported_pairs (http : Http) : Except PyExc (List String) :=
  catchApiOnly "binance" "Failed to fetch supported pairs: " (
    ebind (BinanceExchange._make_request http "GET" "exchangeInfo" []) fun exchange_info =>
    ebind (jGetKey exchange_info "symbols") fun symbols =>
    ebind (jIter symbols) fun rows =>
    ebind (collectPairs BinanceExchange.pair_cond BinanceExchange.pair_value rows) fun pairs =>
    .ok (pySorted pairs))

def BinanceExchange.get_supported_timeframes : List String :=
  BinanceExchange._supported_timeframes.map Prod.fst

/-! ## Crypto.com adapter (`exchanges/crypto_com.py`) -/

def CryptoComExchange._supported_timeframes : List (String × String) :=
  [("1m", "1m"), ("5m", "5m"), ("15m", "15m"), ("30m", "30m"), ("1h", "1h"),
   ("4h", "4h"), ("1d", "1d"), ("1w", "1w"), ("1M", "1M")]

/-- Table lookup; raises `ValueError(f"Unsupported timeframe: {timeframe}")`
for a key not in the table. -/
def CryptoComExchange._convert_timeframe (timeframe : String) : Except PyExc String :=
  match CryptoComExchange._supported_timeframes.lookup timeframe with
  | some v => .ok v
  | none => .error (.valueError ("Unsupported timeframe: " ++ timeframe))

/-- Convert from BTC-BRL to BTC_BRL. -/
def CryptoComExchange._convert_symbol (symbol : String) : String :=
  pyReplace symbol "-" "_"

def CryptoComExchange._make_request (http : Http) (method endpoint : String)
    (params : List (String × JValue)) : Except PyExc JValue :=
  match http ⟨method, "https://api.crypto.com/v2/" ++ endpoint, params⟩ with
  | .ok v => .ok v
  | .error msg => .error (.apiError "crypto_com" ("API request failed: " ++ msg))

/-- One candlestick object read in source order (`t/1000`, then `float` of
`o,h,l,c,v`).  The source computes `quote_volume` as
`float(candle_data["v"]) * float(candle_data["c"])`; both factors re-evaluate
pure subexpressions already evaluated for `volume` and `close`, so the
product is recorded as `v * c`. -/
def CryptoComExchange.row_fields (cd : JValue) : Except PyExc RowFields :=
  ebind (jGetKey cd "t") fun xt => ebind (jDiv1000 xt) fun ts =>
  ebind (jGetKey cd "o") fun xo => ebind (pyFloat xo) fun o =>
  ebind (jGetKey cd "h") fun xh => ebind (pyFloat xh) fun h =>
  ebind (jGetKey cd "l") fun xl => ebind (pyFloat xl) fun l =>
  ebind (jGetKey cd "c") fun xc => ebind (pyFloat xc) fun c =>
  ebind (jGetKey cd "v") fun xv => ebind (pyFloat xv) fun v =>
  .ok ⟨ts, o, h, l, c, v, v * c⟩

def CryptoComExchange.get_candles (http : Http) (symbol timeframe : String)
    (start_date end_date : ℚ) : Except PyExc (List Candle) :=
  catchAll "crypto_com" "Failed to fetch candles: " (
    ebind (CryptoComExchange._convert_timeframe timeframe) fun cc_timeframe =>
    let cc_symbol := CryptoComExchange._convert_symbol symbol
    let start_ms := truncRat (start_date * 1000)
    let end_ms := truncRat (end_date * 1000)
    ebind (CryptoComExchange._make_request http "GET" "public/get-candlestick"
      [("instrument_name", .str cc_symbol), ("timeframe", .str cc_timeframe),
       ("start_ts", .num (start_ms : ℚ)), ("end_ts", .num (end_ms : ℚ))]) fun response =>
    ebind (jGetKey response "result") fun result =>
    ebind (jGetKey result "data") fun data =>
    ebind (jIter data) fun rows =>
    emap (fun cd => ebind (CryptoComExchange.row_fields cd) fun f =>
      .ok (buildCandle symbol "crypto_com" timeframe f)) rows)

/-- Comprehension condition: `ticker["i"].endswith("_BRL")`. -/
def CryptoComExchange.pair_cond (row : JValue) : Except PyExc Bool :=
  ebind (jGetKey row "i") fun s => jEndsWith s "_BRL"

/-- Comprehension value: `base = ticker["i"].replace("_BRL", "");
f"{base}-BRL"`. -/
def CryptoComExchange.pair_value (row : JValue) : Except PyExc String :=
  ebind (jGetKey row "i") fun s =>
  ebind (jReplace s "_BRL" "") fun base =>
  .ok (base ++ "-BRL")

def CryptoComExchange.get_supported_pairs (http : Http) : Except PyExc (List String) :=
  catchAll "crypto_com" "Failed to fetch supported pairs: " (
    ebind (CryptoComExchange._make_request http "GET" "public/get-ticker" []) fun response =>
    ebind (jGetKey response "result") fun result =>
    ebind (jGetKey result "data") fun data =>
    ebind (jIter data) fun rows =>
    ebind (collectPairs CryptoComExchange.pair_cond CryptoComExchange.pair_value rows) fun pairs =>
    .ok (pySorted pairs))

def CryptoComExchange.get_supported_timeframes : List String :=
  CryptoComExchange._supported_timeframes.map Prod.fst

/-! ## Bitget adapter (`exchanges/bitget.py`) -/

def BitgetExchange._supported_timeframes : List (String × String) :=
  [("1m", "1m"), ("5m", "5m"), ("15m", "15m"), ("30m", "30m"), ("1h", "1h"),
   ("4h", "4h"), ("1d", "1day"), ("1w", "1week")]

def BitgetExchange._convert_timeframe (timeframe : String) : Except PyExc String :=
  match BitgetExchange._supported_timeframes.lookup timeframe with
  | some v => .ok v
  | none => .error (.valueError ("Unsupported timeframe: " ++ timeframe))

/-- Convert from BTC-BRL to BTCBRL. -/
def BitgetExchange._convert_symbol (symbol : String) : String :=
  pyUpper (pyReplace symbol "-" "")

def BitgetExchange._make_request (http : Http) (method endpoint : String)
    (params : List (String × JValue)) : Except PyExc JValue :=
  match http ⟨method, "https://api.bitget.com/api/v2/" ++ endpoint, params⟩ with
  | .ok v => .ok v
  | .error msg => .error (.apiError "bitget" ("API request failed: " ++ msg))

/-- One raw row: `int(candle_data[0]) / 1000`, `float` of indices 1..6. -/
def BitgetExchange.row_fields (cd : JValue) : Except PyExc RowFields :=
  ebind (jIndex cd 0) fun x0 => ebind (pyInt x0) fun t0 =>
  ebind (jIndex cd 1) fun x1 => ebind (pyFloat x1) fun o =>
  ebind (jIndex cd 2) fun x2 => ebind (pyFloat x2) fun h =>
  ebind (jIndex cd 3) fun x3 => ebind (pyFloat x3) fun l =>
  ebind (jIndex cd 4) fun x4 => ebind (pyFloat x4) fun c =>
  ebind (jIndex cd 5) fun x5 => ebind (pyFloat x5) fun v =>
  ebind (jIndex cd 6) fun x6 => ebind (pyFloat x6) fun qv =>
  .ok ⟨(t0 : ℚ) / 1000, o, h, l, c, v, qv⟩

def BitgetExchange.get_candles (http : Http) (symbol timeframe : String)
    (start_date end_date : ℚ) : Except PyExc (List Candle) :=
  catchAll "bitget" "Error getting candles from Bitget: " (
    ebind (BitgetExchange._convert_timeframe timeframe) fun bitget_timeframe =>
    let bitget_symbol := BitgetExchange._convert_symbol symbol
    let start_ms := truncRat (start_date * 1000)
    let end_ms := truncRat (end_date * 1000)
    ebind (BitgetExchange._make_request http "GET" "spot/market/candles"
      [("symbol", .str bitget_symbol), ("granularity", .str bitget_timeframe),
       ("startTime", .num (start_ms : ℚ)), ("endTime", .num (end_ms : ℚ))]) fun response =>
    ebind (jGetKey response "data") fun data =>
    ebind (jIter data) fun rows =>
    emap (fun cd => ebind (BitgetExchange.row_fields cd) fun f =>
      .ok (buildCandle symbol "bitget" timeframe f)) rows)

/-- Loop condition: `symbol_data['quoteCoin'] == 'BRL'`. -/
def BitgetExchange.pair_cond (row : JValue) : Except PyExc Bool :=
  ebind (jGetKey row "quoteCoin") fun q => .ok (jEqStr q "BRL")

/-- Loop value: `f"{symbol_data['baseCoin']}-{symbol_data['quoteCoin']}"`. -/
def BitgetExchange.pair_value (row : JValue) : Except PyExc String :=
  ebind (jGetKey row "baseCoin") fun b =>
  ebind (jGetKey row "quoteCoin") fun q =>
  .ok (jStr b ++ "-" ++ jStr q)

def BitgetExchange.get_supported_pairs (http : Http) : Except PyExc (List String) :=
  catchAll "bitget" "Failed to fetch supported pairs: " (
    ebind (BitgetExchange._make_request http "GET" "spot/public/symbols" []) fun response =>
    ebind (jGetKey response "data") fun data =>
    ebind (jIter data) fun rows =>
    ebind (collectPairs BitgetExchange.pair_cond BitgetExchange.pair_value rows) fun pairs =>
    .ok (pySorted pairs))

def BitgetExchange.get_supported_timeframes : List String :=
  BitgetExchange._supported_timeframes.map Prod.fst

/-! ## Bybit adapter (`exchanges/bybit.py`) -/

def BybitExchange._supported_timeframes : List (String × String) :=
  [("1m", "1"), ("3m", "3"), ("5m", "5"), ("15m", "15"), ("30m", "30"),
   ("1h", "60"), ("2h", "120"), ("4h", "240"), ("6h", "360"), ("12h", "720"),
   ("1d", "D"), ("1w", "W"), ("1M", "M")]

def BybitExchange._convert_timeframe (timeframe : String) : Except PyExc String :=
  match BybitExchange._supported_timeframes.lookup timeframe with
  | some v => .ok v
  | none => .error (.valueError ("Unsupported timeframe: " ++ timeframe))

/-- Convert from BTC-BRL to BTCBRL. -/
def BybitExchange._convert_symbol (symbol : String) : String :=
  pyUpper (pyReplace symbol "-" "")

def BybitExchange._make_request (http : Http) (method endpoint : String)
    (params : List (String × JValue)) : Except PyExc JValue :=
  match http ⟨method, "https://api.bybit.com/v5/" ++ endpoint, params⟩ with
  | .ok v => .ok v
  | .error msg => .error (.apiError "bybit" ("API request failed: " ++ msg))

/-- One raw row: `int(candle_data[0]) / 1000`, `float` of indices 1..6. -/
def BybitExchange.row_fields (cd : JValue) : Except PyExc RowFields :=
  ebind (jIndex cd 0) fun x0 => ebind (pyInt x0) fun t0 =>
  ebind (jIndex cd 1) fun x1 => ebind (pyFloat x1) fun o =>
  ebind (jIndex cd 2) fun x2 => ebind (pyFloat x2) fun h =>
  ebind (jIndex cd 3) fun x3 => ebind (pyFloat x3) fun l =>
  ebind (jIndex cd 4) fun x4 => ebind (pyFloat x4) fun c =>
  ebind (jIndex cd 5) fun x5 => ebind (pyFloat x5) fun v =>
  ebind (jIndex cd 6) fun x6 => ebind (pyFloat x6) fun qv =>
  .ok ⟨(t0 : ℚ) / 1000, o, h, l, c, v, qv⟩

def BybitExchange.get_candles (http : Http) (symbol timeframe : String)
    (start_date end_date : ℚ) : Except PyExc (List Candle) :=
  catchAll "bybit" "Error getting candles from Bybit: " (
    ebind (BybitExchange._convert_timeframe timeframe) fun bybit_timeframe =>
    let bybit_symbol := BybitExchange._convert_symbol symbol
    let start_ms := truncRat (start_date * 1000)
    let end_ms := truncRat (end_date * 1000)
    ebind (BybitExchange._make_request http "GET" "market/kline"
      [("category", .str "spot"), ("symbol", .str bybit_symbol),
       ("interval", .str bybit_timeframe),
       ("start", .num (start_ms : ℚ)), ("end", .num (end_ms : ℚ))]) fun response =>
    ebind (jGetKey response "result") fun result =>
    ebind (jGetKey result "list") fun lst =>
    ebind (jIter lst) fun rows =>
    emap (fun cd => ebind (BybitExchange.row_fields cd) fun f =>
      .ok (buildCandle symbol "bybit" timeframe f)) rows)

/-- Loop condition: `symbol_data['quoteCoin'] == 'BRL'`. -/
def BybitExchange.pair_cond (row : JValue) : Except PyExc Bool :=
  ebind (jGetKey row "quoteCoin") fun q => .ok (jEqStr q "BRL")

/-- Loop value: `f"{symbol_data['baseCoin']}-{symbol_data['quoteCoin']}"`. -/
def BybitExchange.pair_value (row : JValue) : Except PyExc String :=
  ebind (jGetKey row "baseCoin") fun b =>
  ebind (jGetKey row "quoteCoin") fun q =>
  .ok (jStr b ++ "-" ++ jStr q)

def BybitExchange.get_supported_pairs (http : Http) : Except PyExc (List String) :=
  catchAll "bybit" "Failed to fetch supported pairs: " (
    ebind (BybitExchange._make_request http "GET" "market/instruments-info"
      [("category", .str "spot")]) fun response =>
    ebind (jGetKey response "result") fun result =>
    ebind (jGetKey result "list") fun lst =>
    ebind (jIter lst) fun rows =>
    ebind (collectPairs BybitExchange.pair_cond BybitExchange.pair_value rows) fun pairs =>
    .ok (pySorted pairs))

def BybitExchange.get_supported_timeframes : List String :=
  BybitExchange._supported_timeframes.map Prod.fst

/-! ## MEXC adapter (`exchanges/mexc.py`) -/

def MEXCExchange._supported_timeframes : List (String × String) :=
  [("1m", "1m"), ("5m", "5m"), ("15m", "15m"), ("30m", "30m"), ("1h", "60m"),
   ("4h", "4h"), ("1d", "1d"), ("1w", "1W"), ("1M", "1M")]

def MEXCExchange._convert_timeframe (timeframe : String) : Except PyExc String :=
  match MEXCExchange._supported_timeframes.lookup timeframe with
  | some v => .ok v
  | none => .error (.valueError ("Unsupported timeframe: " ++ timeframe))

/-- Convert from BTC-BRL to BTCBRL. -/
def MEXCExchange._convert_symbol (symbol : String) : String :=
  pyUpper (pyReplace symbol "-" "")

def MEXCExchange._make_request (http : Http) (method endpoint : String)
    (params : List (String × JValue)) : Except PyExc JValue :=
  match http ⟨method, "https://api.mexc.com/api/v3/" ++ endpoint, params⟩ with
  | .ok v => .ok v
  | .error msg => .error (.apiError "mexc" ("API request failed: " ++ msg))

/-- One raw row: `int(candle_data[0]) / 1000`, `float` of indices 1..5 and 7. -/
def MEXCExchange.row_fields (cd : JValue) : Except PyExc RowFields :=
  ebind (jIndex cd 0) fun x0 => ebind (pyInt x0) fun t0 =>
  ebind (jIndex cd 1) fun x1 => ebind (pyFloat x1) fun o =>
  ebind (jIndex cd 2) fun x2 => ebind (pyFloat x2) fun h =>
  ebind (jIndex cd 3) fun x3 => ebind (pyFloat x3) fun l =>
  ebind (jIndex cd 4) fun x4 => ebind (pyFloat x4) fun c =>
  ebind (jIndex cd 5) fun x5 => ebind (pyFloat x5) fun v =>
  ebind (jIndex cd 7) fun x7 => ebind (pyFloat x7) fun qv =>
  .ok ⟨(t0 : ℚ) / 1000, o, h, l, c, v, qv⟩

def MEXCExchange.get_candles (http : Http) (symbol timeframe : String)
    (start_date end_date : ℚ) : Except PyExc (List Candle) :=
  catchAll "mexc" "Error getting candles from MEXC: " (
    ebind (MEXCExchange._convert_timeframe timeframe) fun mexc_timeframe =>
    let mexc_symbol := MEXCExchange._convert_symbol symbol
    let start_ms := truncRat (start_date * 1000)
    let end_ms := truncRat (end_date * 1000)
    ebind (MEXCExchange._make_request http "GET" "klines"
      [("symbol", .str mexc_symbol), ("interval", .str mexc_timeframe),
       ("startTime", .num (start_ms : ℚ)), ("endTime", .num (end_ms : ℚ))]) fun response =>
    ebind (jIter response) fun rows =>
    emap (fun cd => ebind (MEXCExchange.row_fields cd) fun f =>
      .ok (buildCandle symbol "mexc" timeframe f)) rows)

/-- Loop condition: `symbol_data["status"] == "1" and
symbol_data["quoteAsset"] == "BRL"` (short-circuiting). -/
def MEXCExchange.pair_cond (row : JValue) : Except PyExc Bool :=
  ebind (jGetKey row "status") fun st =>
  if jEqStr st "1" then
    ebind (jGetKey row "quoteAsset") fun q => .ok (jEqStr q "BRL")
  else .ok false

/-- Loop value: `f"{symbol_data['baseAsset']}-{symbol_data['quoteAsset']}"`. -/
def MEXCExchange.pair_value (row : JValue) : Except PyExc String :=
  ebind (jGetKey row "baseAsset") fun b =>
  ebind (jGetKey row "quoteAsset") fun q =>
  .ok (jStr b ++ "-" ++ jStr q)

def MEXCExchange.get_supported_pairs (http : Http) : Except PyExc (List String) :=
  catchAll "mexc" "Failed to fetch supported pairs: " (
    ebind (MEXCExchange._make_request http "GET" "exchangeInfo" []) fun response =>
    ebind (jGetKey response "symbols") fun symbols =>
    ebind (jIter symbols) fun rows =>
    ebind (collectPairs MEXCExchange.pair_cond MEXCExchange.pair_value rows) fun pairs =>
    .ok (pySorted pairs))

def MEXCExchange.get_supported_timeframes : List String :=
  MEXCExchange._supported_timeframes.map Prod.fst

/-! ## OKX adapter (`exchanges/okx.py`) -/

def OKXExchange._supported_timeframes : List (String × String) :=
  [("1m", "1m"), ("5m", "5m"), ("15m", "15m"), ("30m", "30m"), ("1h", "1H"),
   ("4h", "4H"), ("1d", "1D"), ("1w", "1W")]

def OKXExchange._convert_timeframe (timeframe : String) : Except PyExc String :=
  match OKXExchange._supported_timeframes.lookup timeframe with
  | some v => .ok v
  | none => .error (.valueError ("Unsupported timeframe: " ++ timeframe))

/-- OKX uses the same format (e.g., BTC-BRL): identity. -/
def OKXExchange._convert_symbol (symbol : String) : String := symbol

def OKXExchange._make_request (http : Http) (method endpoint : String)
    (params : List (String × JValue)) : Except PyExc JValue :=
  match http ⟨method, "https://www.okx.com/api/v5/" ++ endpoint, params⟩ with
  | .ok v => .ok v
  | .error msg => .error (.apiError "okx" ("API request failed: " ++ msg))

/-- One raw row: `int(candle_data[0]) / 1000`, `float` of indices 1..6. -/
def OKXExchange.row_fields (cd : JValue) : Except PyExc RowFields :=
  ebind (jIndex cd 0) fun x0 => ebind (pyInt x0) fun t0 =>
  ebind (jIndex cd 1) fun x1 => ebind (pyFloat x1) fun o =>
  ebind (jIndex cd 2) fun x2 => ebind (pyFloat x2) fun h =>
  ebind (jIndex cd 3) fun x3 => ebind (pyFloat x3) fun l =>
  ebind (jIndex cd 4) fun x4 => ebind (pyFloat x4) fun c =>
  ebind (jIndex cd 5) fun x5 => ebind (pyFloat x5) fun v =>
  ebind (jIndex cd 6) fun x6 => ebind (pyFloat x6) fun qv =>
  .ok ⟨(t0 : ℚ) / 1000, o, h, l, c, v, qv⟩

/-- Note the reversed range parameters: `after` carries the end timestamp and
`before` the start timestamp. -/
def OKXExchange.get_candles (http : Http) (symbol timeframe : String)
    (start_date end_date : ℚ) : Except PyExc (List Candle) :=
  catchAll "okx" "Error getting candles from OKX: " (
    ebind (OKXExchange._convert_timeframe timeframe) fun okx_timeframe =>
    let okx_symbol := OKXExchange._convert_symbol symbol
    let start_ms := truncRat (start_date * 1000)
    let end_ms := truncRat (end_date * 1000)
    ebind (OKXExchange._make_request http "GET" "market/history-candles"
      [("instId", .str okx_symbol), ("bar", .str okx_timeframe),
       ("after", .num (end_ms : ℚ)), ("before", .num (start_ms : ℚ))]) fun response =>
    ebind (jGetKey response "data") fun data =>
    ebind (jIter data) fun rows =>
    emap (fun cd => ebind (OKXExchange.row_fields cd) fun f =>
      .ok (buildCandle symbol "okx" timeframe f)) rows)

/-- Loop condition: `instrument["quoteCcy"] == "BRL"`. -/
def OKXExchange.pair_cond (row : JValue) : Except PyExc Bool :=
  ebind (jGetKey row "quoteCcy") fun q => .ok (jEqStr q "BRL")

/-- Loop value: `f"{instrument['baseCcy']}-{instrument['quoteCcy']}"`. -/
def OKXExchange.pair_value (row : JValue) : Except PyExc String :=
  ebind (jGetKey row "baseCcy") fun b =>
  ebind (jGetKey row "quoteCcy") fun q =>
  .ok (jStr b ++ "-" ++ jStr q)

def OKXExchange.get_supported_pairs (http : Http) : Except PyExc (List String) :=
  catchAll "okx" "Failed to fetch supported pairs: " (
    ebind (OKXExchange._make_request http "GET" "public/instruments"
      [("instType", .str "SPOT")]) fun response =>
    ebind (jGetKey response "data") fun data =>
    ebind (jIter data) fun rows =>
    ebind (collectPairs OKXExchange.pair_cond OKXExchange.pair_value rows) fun pairs =>
    .ok (pySorted pairs))

def OKXExchange.get_supported_timeframes : List String :=
  OKXExchange._supported_timeframes.map Prod.fst

/-! ## Foxbit adapter (`exchanges/foxbit.py`) -/

def FoxbitExchange._supported_timeframes : List (String × String) :=
  [("1m", "1m"), ("5m", "5m"), ("15m", "15m"), ("30m", "30m"), ("1h", "1h"),
   ("4h", "4h"), ("1d", "1d"), ("1w", "1w")]

/-- Foxbit uses the same timeframe format as the canonical one: identity,
no table lookup, no rejection. -/
def FoxbitExchange._convert_timeframe (timeframe : String) : String := timeframe

/-- Convert from BTC-BRL to btcbrl. -/
def FoxbitExchange._convert_symbol (symbol : String) : String :=
  pyLower (pyReplace symbol "-" "")

def FoxbitExchange._make_request (http : Http) (method endpoint : String)
    (params : List (String × JValue)) : Except PyExc JValue :=
  match http ⟨method, "https://api.foxbit.com.br/rest/v3/" ++ endpoint, params⟩ with
  | .ok v => .ok v
  | .error msg => .error (.apiError "foxbit" ("API request failed: " ++ msg))

/-- The candlesticks endpoint path, with the native symbol embedded:
`f"markets/{foxbit_symbol}/candlesticks"`. -/
def FoxbitExchange.candles_endpoint (foxbit_symbol : String) : String :=
  "markets/" ++ foxbit_symbol ++ "/candlesticks"

/-- The query parameters of the candlesticks request. -/
def FoxbitExchange.candles_params (foxbit_timeframe : String)
    (start_ms end_ms : Int) : List (String × JValue) :=
  [("interval", .str foxbit_timeframe), ("start_time", .num (start_ms : ℚ)),
   ("end_time", .num (end_ms : ℚ)), ("limit", .num 500)]

/-- One raw row: `int(candle_data[0]) / 1000`, `float` of indices 1..4
(prices), 6 (base volume) and 7 (quote volume). -/
def FoxbitExchange.row_fields (cd : JValue) : Except PyExc RowFields :=
  ebind (jIndex cd 0) fun x0 => ebind (pyInt x0) fun t0 =>
  ebind (jIndex cd 1) fun x1 => ebind (pyFloat x1) fun o =>
  ebind (jIndex cd 2) fun x2 => ebind (pyFloat x2) fun h =>
  ebind (jIndex cd 3) fun x3 => ebind (pyFloat x3) fun l =>
  ebind (jIndex cd 4) fun x4 => ebind (pyFloat x4) fun c =>
  ebind (jIndex cd 6) fun x6 => ebind (pyFloat x6) fun v =>
  ebind (jIndex cd 7) fun x7 => ebind (pyFloat x7) fun qv =>
  .ok ⟨(t0 : ℚ) / 1000, o, h, l, c, v, qv⟩

def FoxbitExchange.get_candles (http : Http) (symbol timeframe : String)
    (start_date end_date : ℚ) : Except PyExc (List Candle) :=
  catchAll "foxbit" "Error getting candles from Foxbit: " (
    let foxbit_timeframe := FoxbitExchange._convert_timeframe timeframe
    let foxbit_symbol := FoxbitExchange._convert_symbol symbol
    let start_ms := truncRat (start_date * 1000)
    let end_ms := truncRat (end_date * 1000)
    ebind (FoxbitExchange._make_request http "GET"
      (FoxbitExchange.candles_endpoint foxbit_symbol)
      (FoxbitExchange.candles_params foxbit_timeframe start_ms end_ms)) fun response =>
    ebind (jIter response) fun rows =>
    emap (fun cd => ebind (FoxbitExchange.row_fields cd) fun f =>
      .ok (buildCandle symbol "foxbit" timeframe f)) rows)

/-- Loop condition: none (every market is kept). -/
def FoxbitExchange.pair_cond (_row : JValue) : Except PyExc Bool := .ok true

/-- Loop value: `market['symbol']`, appended untouched.  The source appends
the raw JSON value; since `sorted` then compares it against strings, a
non-string symbol would raise a `TypeError` inside the same `try` block, so
the model requires a string here. -/
def FoxbitExchange.pair_value (row : JValue) : Except PyExc String :=
  ebind (jGetKey row "symbol") fun s =>
  match s with
  | .str v => .ok v
  | _ => .error (.typeError "\x27<\x27 not supported between instances")

def FoxbitExchange.get_supported_pairs (http : Http) : Except PyExc (List String) :=
  catchAll "foxbit" "Failed to fetch supported pairs: " (
    ebind (FoxbitExchange._make_request http "GET" "markets" []) fun response =>
    ebind (jGetKey response "data") fun data =>
    ebind (jIter data) fun rows =>
    ebind (collectPairs FoxbitExchange.pair_cond FoxbitExchange.pair_value rows) fun pairs =>
    .ok (pySorted pairs))

def FoxbitExchange.get_supported_timeframes : List String :=
  FoxbitExchange._supported_timeframes.map Prod.fst

/-! ## Novadax adapter (`exchanges/novadax.py`) -/

def NovadaxExchange._supported_timeframes : List (String × String) :=
  [("1m", "ONE_MIN"), ("5m", "FIVE_MIN"), ("15m", "FIFTEEN_MIN"),
   ("30m", "HALF_HOU"), ("1h", "ONE_HOU"), ("1d", "ONE_DAY"), ("1w", "ONE_WEE")]

def NovadaxExchange._convert_timeframe (timeframe : String) : Except PyExc String :=
  match NovadaxExchange._supported_timeframes.lookup timeframe with
  | some v => .ok v
  | none => .error (.valueError ("Unsupported timeframe: " ++ timeframe))

/-- Convert from BTC-BRL to BTC_BRL. -/
def NovadaxExchange._convert_symbol (symbol : String) : String :=
  pyReplace symbol "-" "_"

def NovadaxExchange._make_request (http : Http) (method endpoint : String)
    (params : List (String × JValue)) : Except PyExc JValue :=
  match http ⟨method, "https://api.novadax.com/v1/" ++ endpoint, params⟩ with
  | .ok v => .ok v
  | .error msg => .error (.apiError "novadax" ("API request failed: " ++ msg))

/-- One raw object row: `int(candle_data["score"])` seconds (no division),
`float` of the named price/volume fields (`amount` is the base volume, `vol`
the quote volume). -/
def NovadaxExchange.row_fields (cd : JValue) : Except PyExc RowFields :=
  ebind (jGetKey cd "score") fun xs => ebind (pyInt xs) fun t0 =>
  ebind (jGetKey cd "openPrice") fun xo => ebind (pyFloat xo) fun o =>
  ebind (jGetKey cd "highPrice") fun xh => ebind (pyFloat xh) fun h =>
  ebind (jGetKey cd "lowPrice") fun xl => ebind (pyFloat xl) fun l =>
  ebind (jGetKey cd "closePrice") fun xc => ebind (pyFloat xc) fun c =>
  ebind (jGetKey cd "amount") fun xv => ebind (pyFloat xv) fun v =>
  ebind (jGetKey cd "vol") fun xq => ebind (pyFloat xq) fun qv =>
  .ok ⟨(t0 : ℚ), o, h, l, c, v, qv⟩

/-- Novadax sends plain epoch seconds (`int(start_date.timestamp())`). -/
def NovadaxExchange.get_candles (http : Http) (symbol timeframe : String)
    (start_date end_date : ℚ) : Except PyExc (List Candle) :=
  catchAll "novadax" "Error getting candles from Novadax: " (
    ebind (NovadaxExchange._convert_timeframe timeframe) fun novadax_timeframe =>
    let novadax_symbol := NovadaxExchange._convert_symbol symbol
    let start_ms := truncRat start_date
    let end_ms := truncRat end_date
    ebind (NovadaxExchange._make_request http "GET" "market/kline/history"
      [("symbol", .str novadax_symbol), ("from", .num (start_ms : ℚ)),
       ("to", .num (end_ms : ℚ)), ("unit", .str novadax_timeframe)]) fun response =>
    ebind (jGetKey response "data") fun data =>
    ebind (jIter data) fun rows =>
    emap (fun cd => ebind (NovadaxExchange.row_fields cd) fun f =>
      .ok (buildCandle symbol "novadax" timeframe f)) rows)

/-- Loop condition: none — every catalog entry is kept (there is no quote
currency filter in the source). -/
def NovadaxExchange.pair_cond (_row : JValue) : Except PyExc Bool := .ok true

/-- Loop value: `symbol_data["symbol"].replace("_", "-")`. -/
def NovadaxExchange.pair_value (row : JValue) : Except PyExc String :=
  ebind (jGetKey row "symbol") fun s => jReplace s "_" "-"

def NovadaxExchange.get_supported_pairs (http : Http) : Except PyExc (List String) :=
  catchAll "novadax" "Failed to fetch supported pairs: " (
    ebind (NovadaxExchange._make_request http "GET" "common/symbols" []) fun response =>
    ebind (jGetKey response "data") fun data =>
    ebind (jIter data) fun rows =>
    ebind (collectPairs NovadaxExchange.pair_cond NovadaxExchange.pair_value rows) fun pairs =>
    .ok (pySorted pairs))

def NovadaxExchange.get_supported_timeframes : List String :=
  NovadaxExchange._supported_timeframes.map Prod.fst

/-! ## Mercado Bitcoin adapter (`exchanges/mercado_bitcoin.py`) -/

def MercadoBitcoinExchange._supported_timeframes : List (String × String) :=
  [("1m", "1m"), ("5m", "5m"), ("15m", "15m"), ("30m", "30m"), ("1h", "1h"),
   ("4h", "4h"), ("1d", "1d"), ("1w", "1w")]

/-- Mercado Bitcoin uses the same timeframe format as the canonical one:
identity, no table lookup, no rejection. -/
def MercadoBitcoinExchange._convert_timeframe (timeframe : String) : String := timeframe

/-- The source comment says "Convert from BTC-BRL to BTC" but the body
returns the symbol unchanged. -/
def MercadoBitcoinExchange._convert_symbol (symbol : String) : String := symbol

def MercadoBitcoinExchange._make_request (http : Http) (method endpoint : String)
    (params : List (String × JValue)) : Except PyExc JValue :=
  match http ⟨method, "https://api.mercadobitcoin.net/api/v4/" ++ endpoint, params⟩ with
  | .ok v => .ok v
  | .error msg => .error (.apiError "mercado_bitcoin" ("API request failed: " ++ msg))

/-- The query parameters of the candles request. -/
def MercadoBitcoinExchange.candles_params (mb_symbol mb_timeframe : String)
    (start_ts end_ts : Int) : List (String × JValue) :=
  [("from", .num (start_ts : ℚ)), ("to", .num (end_ts : ℚ)),
   ("resolution", .str mb_timeframe), ("symbol", .str mb_symbol)]

/-- Column-oriented row `i`: `int(timestamps[i])` seconds, `float` of the
parallel arrays.  `quote_volume` re-evaluates `float(volumes[i])`, a pure
expression already evaluated for `volume`, so it is recorded as `v`. -/
def MercadoBitcoinExchange.row_fields
    (timestamps opens highs lows closes volumes : JValue) (i : Nat) :
    Except PyExc RowFields :=
  ebind (jIndex timestamps i) fun xt => ebind (pyInt xt) fun t0 =>
  ebind (jIndex opens i) fun xo => ebind (pyFloat xo) fun o =>
  ebind (jIndex highs i) fun xh => ebind (pyFloat xh) fun h =>
  ebind (jIndex lows i) fun xl => ebind (pyFloat xl) fun l =>
  ebind (jIndex closes i) fun xc => ebind (pyFloat xc) fun c =>
  ebind (jIndex volumes i) fun xv => ebind (pyFloat xv) fun v =>
  .ok ⟨(t0 : ℚ), o, h, l, c, v, v⟩

/-- Mercado Bitcoin sends plain epoch seconds; the response holds parallel
arrays under `t,o,h,l,c,v`, each defaulting to `[]` via `.get`. -/
def MercadoBitcoinExchange.get_candles (http : Http) (symbol timeframe : String)
    (start_date end_date : ℚ) : Except PyExc (List Candle) :=
  catchAll "mercado_bitcoin" "Error getting candles from Mercado Bitcoin: " (
    let mb_timeframe := MercadoBitcoinExchange._convert_timeframe timeframe
    let mb_symbol := MercadoBitcoinExchange._convert_symbol symbol
    let start_ts := truncRat start_date
    let end_ts := truncRat end_date
    ebind (MercadoBitcoinExchange._make_request http "GET" "candles"
      (MercadoBitcoinExchange.candles_params mb_symbol mb_timeframe start_ts end_ts)) fun response =>
    ebind (jGet response "t" (.arr [])) fun timestamps =>
    ebind (jGet response "o" (.arr [])) fun opens =>
    ebind (jGet response "h" (.arr [])) fun highs =>
    ebind (jGet response "l" (.arr [])) fun lows =>
    ebind (jGet response "c" (.arr [])) fun closes =>
    ebind (jGet response "v" (.arr [])) fun volumes =>
    ebind (pyLen timestamps) fun n =>
    emap (fun i => ebind (MercadoBitcoinExchange.row_fields
        timestamps opens highs lows closes volumes i) fun f =>
      .ok (buildCandle symbol "mercado_bitcoin" timeframe f)) (List.range n))

/-- Field lookup on an object value (`none` for a missing key or a
non-object). -/
def jLookup (v : JValue) (k : String) : Option JValue :=
  match v with
  | .obj fields => fields.lookup k
  | _ => none

/-- Whether a record carries a field (used to model which columns a pandas
`DataFrame.from_records` frame has). -/
def jHasKey (v : JValue) (k : String) : Bool := (jLookup v k).isSome

/-- `row[k] == lit` in the pandas filter: a missing field is NaN and compares
unequal. -/
def jFieldEq (v : JValue) (k lit : String) : Bool :=
  match jLookup v k with
  | some x => jEqStr x lit
  | none => false

/-- Model of `response_df = pd.DataFrame.from_records(rows);
response_df[(response_df['type'] == 'CRYPTO')]['symbol'].tolist()`.
A column exists iff some record carries the field (otherwise the column
subscription raises `KeyError`); records lacking `type` get NaN and fail the
filter; a kept record lacking `symbol` yields NaN, which the subsequent
`sorted` cannot compare with strings (`TypeError`). -/
def MercadoBitcoinExchange.pairs_from_records (rows : List JValue) :
    Except PyExc (List String) :=
  if rows.all (fun r => jHasKey r "type" = false) then .error (.keyError "type")
  else if rows.all (fun r => jHasKey r "symbol" = false) then .error (.keyError "symbol")
  else
    emap (fun r =>
        match jLookup r "symbol" with
        | some (.str s) => .ok s
        | _ => .error (.typeError "\x27<\x27 not supported between instances"))
      (rows.filter (fun r => jFieldEq r "type" "CRYPTO"))

def MercadoBitcoinExchange.get_supported_pairs (http : Http) : Except PyExc (List String) :=
  catchAll "mercado_bitcoin" "Failed to fetch supported pairs: " (
    ebind (MercadoBitcoinExchange._make_request http "GET" "symbols" []) fun response =>
    ebind (jIter response) fun rows =>
    ebind (MercadoBitcoinExchange.pairs_from_records rows) fun pairs =>
    .ok (pySorted pairs))

def MercadoBitcoinExchange.get_supported_timeframes : List String :=
  MercadoBitcoinExchange._supported_timeframes.map Prod.fst

/-! ## The shared base contract (`exchanges/base.py`) -/

/-- `BaseExchange.validate_symbol`: membership in the (network-backed) result
of `get_supported_pairs`; an exception from the pairs call propagates. -/
def BaseExchange.validate_symbol (get_supported_pairs : Except PyExc (List String))
    (symbol : String) : Except PyExc Bool :=
  ebind get_supported_pairs fun pairs => .ok (pairs.contains symbol)

/-- `BaseExchange.validate_timeframe`: membership in the local timeframe
list. -/
def BaseExchange.validate_timeframe (get_supported_timeframes : List String)
    (timeframe : String) : Bool :=
  get_supported_timeframes.contains timeframe

def BinanceExchange.validate_symbol (http : Http) (symbol : String) : Except PyExc Bool :=
  BaseExchange.validate_symbol (BinanceExchange.get_supported_pairs http) symbol

def BinanceExchange.validate_timeframe (timeframe : String) : Bool :=
  BaseExchange.validate_timeframe BinanceExchange.get_supported_timeframes timeframe

def BitgetExchange.validate_symbol (http : Http) (symbol : String) : Except PyExc Bool :=
  BaseExchange.validate_symbol (BitgetExchange.get_supported_pairs http) symbol

def BitgetExchange.validate_timeframe (timeframe : String) : Bool :=
  BaseExchange.validate_timeframe BitgetExchange.get_supported_timeframes timeframe

def BybitExchange.validate_symbol (http : Http) (symbol : String) : Except PyExc Bool :=
  BaseExchange.validate_symbol (BybitExchange.get_supported_pairs http) symbol

def BybitExchange.validate_timeframe (timeframe : String) : Bool :=
  BaseExchange.validate_timeframe BybitExchange.get_supported_timeframes timeframe

def CryptoComExchange.validate_symbol (http : Http) (symbol : String) : Except PyExc Bool :=
  BaseExchange.validate_symbol (CryptoComExchange.get_supported_pairs http) symbol

def CryptoComExchange.validate_timeframe (timeframe : String) : Bool :=
  BaseExchange.validate_timeframe CryptoComExchange.get_supported_timeframes timeframe

def FoxbitExchange.validate_symbol (http : Http) (symbol : String) : Except PyExc Bool :=
  BaseExchange.validate_symbol (FoxbitExchange.get_supported_pairs http) symbol

def FoxbitExchange.validate_timeframe (timeframe : String) : Bool :=
  BaseExchange.validate_timeframe FoxbitExchange.get_supported_timeframes timeframe

def MercadoBitcoinExchange.validate_symbol (http : Http) (symbol : String) : Except PyExc Bool :=
  BaseExchange.validate_symbol (MercadoBitcoinExchange.get_supported_pairs http) symbol

def MercadoBitcoinExchange.validate_timeframe (timeframe : String) : Bool :=
  BaseExchange.validate_timeframe MercadoBitcoinExchange.get_supported_timeframes timeframe

def MEXCExchange.validate_symbol (http : Http) (symbol : String) : Except PyExc Bool :=
  BaseExchange.validate_symbol (MEXCExchange.get_supported_pairs http) symbol

def MEXCExchange.validate_timeframe (timeframe : String) : Bool :=
  BaseExchange.validate_timeframe MEXCExchange.get_supported_timeframes timeframe

def NovadaxExchange.validate_symbol (http : Http) (symbol : String) : Except PyExc Bool :=
  BaseExchange.validate_symbol (NovadaxExchange.get_supported_pairs http) symbol

def NovadaxExchange.validate_timeframe (timeframe : String) : Bool :=
  BaseExchange.validate_timeframe NovadaxExchange.get_supported_timeframes timeframe

def OKXExchange.validate_symbol (http : Http) (symbol : String) : Except PyExc Bool :=
  BaseExchange.validate_symbol (OKXExchange.get_supported_pairs http) symbol

def OKXExchange.validate_timeframe (timeframe : String) : Bool :=
  BaseExchange.validate_timeframe OKXExchange.get_supported_timeframes timeframe

/-! ## Helper lemmas -/

theorem ebind_ok_iff {α β : Type} {x : Except PyExc α} {f : α → Except PyExc β} {b : β} :
    ebind x f = .ok b ↔ ∃ a, x = .ok a ∧ f a = .ok b := by
  cases x <;> simp [ebind]

theorem ebind_of_ok {α β : Type} {x : Except PyExc α} {f : α → Except PyExc β} {a : α}
    (h : x = .ok a) : ebind x f = f a := by
  subst h; rfl

theorem catchAll_ok_iff {α : Type} {tag pre : String} {x : Except PyExc α} {v : α} :
    catchAll tag pre x = .ok v ↔ x = .ok v := by
  cases x <;> simp [catchAll]

/-- `catchAll` never lets anything but the adapter-tagged error escape. -/
theorem catchAll_cases {α : Type} (tag pre : String) (x : Except PyExc α) :
    (∃ v, catchAll tag pre x = .ok v) ∨ ∃ m, catchAll tag pre x = .error (.apiError tag m) := by
  cases x <;> simp [catchAll]

theorem catchApiOnly_ok_iff {α : Type} {tag pre : String} {x : Except PyExc α} {v : α} :
    catchApiOnly tag pre x = .ok v ↔ x = .ok v := by
  cases x with
  | ok a => simp [catchApiOnly]
  | error e => cases e <;> (simp [catchApiOnly]; try (split <;> simp))

/-- `catchApiOnly` lets every non-`apiError` exception escape unchanged. -/
theorem catchApiOnly_raw {α : Type} {tag pre : String} {x : Except PyExc α} {e : PyExc}
    (h : x = .error e) (hne : ∀ t m, e ≠ .apiError t m) :
    catchApiOnly tag pre x = .error e := by
  subst h
  cases e <;> first
    | rfl
    | exact absurd rfl (hne _ _)

theorem emap_ok_mem {α β : Type} {f : α → Except PyExc β} {xs : List α} {ys : List β}
    (h : emap f xs = .ok ys) {P : β → Prop} (hf : ∀ x y, f x = .ok y → P y) :
    ∀ y ∈ ys, P y := by
  induction xs generalizing ys with
  | nil =>
      simp only [emap, Except.ok.injEq] at h
      subst h; intro y hy; cases hy
  | cons x xs ih =>
      simp only [emap] at h
      obtain ⟨y, hy, h2⟩ := ebind_ok_iff.mp h
      obtain ⟨ys', hys, h3⟩ := ebind_ok_iff.mp h2
      cases h3
      intro z hz
      rcases List.mem_cons.mp hz with rfl | hz'
      · exact hf _ _ hy
      · exact ih hys _ hz'

theorem emap_ok_length {α β : Type} {f : α → Except PyExc β} {xs : List α} {ys : List β}
    (h : emap f xs = .ok ys) : ys.length = xs.length := by
  induction xs generalizing ys with
  | nil => simp only [emap, Except.ok.injEq] at h; subst h; rfl
  | cons x xs ih =>
      simp only [emap] at h
      obtain ⟨y, _, h2⟩ := ebind_ok_iff.mp h
      obtain ⟨ys', hys, h3⟩ := ebind_ok_iff.mp h2
      cases h3
      simp [ih hys]

/-- Membership characterization of a successful filter-and-reshape loop. -/
theorem collectPairs_mem {cond : JValue → Except PyExc Bool}
    {mk : JValue → Except PyExc String} {rows : List JValue} {ps : List String}
    (h : collectPairs cond mk rows = .ok ps) (p : String) :
    p ∈ ps ↔ ∃ r ∈ rows, cond r = .ok true ∧ mk r = .ok p := by
  induction rows generalizing ps with
  | nil =>
      simp only [collectPairs, Except.ok.injEq] at h
      subst h; simp
  | cons r rs ih =>
      simp only [collectPairs] at h
      obtain ⟨keep, hc, h2⟩ := ebind_ok_iff.mp h
      cases keep with
      | false =>
          simp only [if_neg Bool.false_ne_true] at h2
          rw [ih h2]
          constructor
          · rintro ⟨r', hr', hcond, hmk⟩
            exact ⟨r', List.mem_cons_of_mem _ hr', hcond, hmk⟩
          · rintro ⟨r', hr', hcond, hmk⟩
            rcases List.mem_cons.mp hr' with rfl | hr''
            · rw [hc] at hcond; cases hcond
            · exact ⟨r', hr'', hcond, hmk⟩
      | true =>
          simp only [if_pos rfl] at h2
          obtain ⟨p0, hmk0, h3⟩ := ebind_ok_iff.mp h2
          obtain ⟨ps', hps, h4⟩ := ebind_ok_iff.mp h3
          cases h4
          constructor
          · intro hp
            rcases List.mem_cons.mp hp with rfl | hp'
            · exact ⟨r, List.mem_cons_self _ _, hc, hmk0⟩
            · obtain ⟨r', hr', hcond, hmk⟩ := (ih hps).mp hp'
              exact ⟨r', List.mem_cons_of_mem _ hr', hcond, hmk⟩
          · rintro ⟨r', hr', hcond, hmk⟩
            rcases List.mem_cons.mp hr' with rfl | hr''
            · rw [hmk0] at hmk; cases hmk; exact List.mem_cons_self _ _
            · exact List.mem_cons_of_mem _ ((ih hps).mpr ⟨r', hr'', hcond, hmk⟩)

theorem lexLe_trans : ∀ {a b c : List Char},
    lexLe a b = true → lexLe b c = true → lexLe a c = true := by
  intro a
  induction a with
  | nil => intro b c _ _; simp [lexLe]
  | cons x xs ih =>
      intro b c hab hbc
      cases b with
      | nil => simp [lexLe] at hab
      | cons y ys =>
          cases c with
          | nil => simp [lexLe] at hbc
          | cons z zs =>
              simp only [lexLe] at hab hbc ⊢
              split_ifs at hab hbc ⊢ <;> first
                | rfl
                | omega
                | (exact ih hab hbc)

theorem lexLe_total : ∀ (a b : List Char), lexLe a b = true ∨ lexLe b a = true := by
  intro a
  induction a with
  | nil => intro b; left; simp [lexLe]
  | cons x xs ih =>
      intro b
      cases b with
      | nil => right; simp [lexLe]
      | cons y ys =>
          simp only [lexLe]
          rcases ih ys with h | h <;>
            split_ifs <;> first
              | (left; rfl)
              | (right; rfl)
              | omega
              | (left; assumption)
              | (right; assumption)

instance : IsTrans String strLeP := ⟨fun _ _ _ => lexLe_trans⟩

instance : IsTotal String strLeP := ⟨fun a b => lexLe_total a.data b.data⟩

/-- `sorted` output is sorted in code-point order. -/
theorem pySorted_sorted (l : List String) : List.Sorted strLeP (pySorted l) :=
  List.sorted_insertionSort strLeP l

/-- `sorted` output has the same members as its input. -/
theorem mem_pySorted {l : List String} {s : String} : s ∈ pySorted l ↔ s ∈ l :=
  (List.perm_insertionSort strLeP l).mem_iff

theorem jEqStr_true_iff {v : JValue} {lit : String} :
    jEqStr v lit = true ↔ v = .str lit := by
  cases v <;> simp [jEqStr]

/-- Each successful output element of `emap` is the image of some input. -/
theorem emap_mem_iff {α β : Type} {f : α → Except PyExc β} {xs : List α} {ys : List β}
    (h : emap f xs = .ok ys) {y : β} : y ∈ ys ↔ ∃ x ∈ xs, f x = .ok y := by
  induction xs generalizing ys with
  | nil => simp only [emap, Except.ok.injEq] at h; subst h; simp
  | cons x xs ih =>
      simp only [emap] at h
      obtain ⟨y0, hy0, h2⟩ := ebind_ok_iff.mp h
      obtain ⟨ys', hys, h3⟩ := ebind_ok_iff.mp h2
      cases h3
      constructor
      · intro hy
        rcases List.mem_cons.mp hy with rfl | hy'
        · exact ⟨x, List.mem_cons_self _ _, hy0⟩
        · obtain ⟨x', hx', hfx⟩ := (ih hys).mp hy'
          exact ⟨x', List.mem_cons_of_mem _ hx', hfx⟩
      · rintro ⟨x', hx', hfx⟩
        rcases List.mem_cons.mp hx' with rfl | hx''
        · rw [hy0] at hfx; cases hfx; exact List.mem_cons_self _ _
        · exact List.mem_cons_of_mem _ ((ih hys).mpr ⟨x', hx'', hfx⟩)

/-- Every candle built by one of the `get_candles` loops carries the
requested `symbol`/`timeframe` and the adapter's `exchange` literal. -/
theorem build_loop_mem {α : Type} {F : α → Except PyExc RowFields} {s ex t : String}
    {xs : List α} {cs : List Candle}
    (h : emap (fun x => ebind (F x) fun f => .ok (buildCandle s ex t f)) xs = .ok cs) :
    ∀ c ∈ cs, c.symbol = s ∧ c.exchange = ex ∧ c.timeframe = t := by
  refine emap_ok_mem h ?_
  intro x c hc
  obtain ⟨f, _, h2⟩ := ebind_ok_iff.mp hc
  cases h2
  exact ⟨rfl, rfl, rfl⟩

/-- Outcomes of `catchApiOnly`: success, the adapter's own wrapped error, or
a raw escaped exception that is not the adapter's error class. -/
theorem catchApiOnly_cases {α : Type} (tag pre : String) (x : Except PyExc α) :
    (∃ v, catchApiOnly tag pre x = .ok v) ∨
    (∃ m, catchApiOnly tag pre x = .error (.apiError tag m)) ∨
    (∃ e, catchApiOnly tag pre x = .error e ∧ ∀ m, e ≠ .apiError tag m) := by
  cases x with
  | ok a => exact .inl ⟨a, rfl⟩
  | error e =>
      cases e with
      | apiError t m =>
          by_cases ht : t = tag
          · subst ht
            refine .inr (.inl ⟨pre ++ m, ?_⟩)
            simp [catchApiOnly]
          · refine .inr (.inr ⟨.apiError t m, ?_, ?_⟩)
            · simp [catchApiOnly, ht]
            · intro m' hne
              cases hne
              exact ht rfl
      | keyError k => exact .inr (.inr ⟨.keyError k, rfl, by intro m h; cases h⟩)
      | indexError => exact .inr (.inr ⟨.indexError, rfl, by intro m h; cases h⟩)
      | typeError m => exact .inr (.inr ⟨.typeError m, rfl, by intro m' h; cases h⟩)
      | valueError m => exact .inr (.inr ⟨.valueError m, rfl, by intro m' h; cases h⟩)
      | attributeError m => exact .inr (.inr ⟨.attributeError m, rfl, by intro m' h; cases h⟩)

/-- Specification of the shared `sorted(comprehension)` tail of the
`get_supported_pairs` implementations. -/
theorem sortedPairs_spec {cond : JValue → Except PyExc Bool}
    {mk : JValue → Except PyExc String} {rows : List JValue} {ps : List String}
    (h : ebind (collectPairs cond mk rows) (fun pairs => .ok (pySorted pairs)) = .ok ps) :
    List.Sorted strLeP ps ∧ ∀ p, p ∈ ps ↔ ∃ r ∈ rows, cond r = .ok true ∧ mk r = .ok p := by
  obtain ⟨ps0, hps0, h2⟩ := ebind_ok_iff.mp h
  cases h2
  exact ⟨pySorted_sorted _, fun p => mem_pySorted.trans (collectPairs_mem hps0 p)⟩

/-! ## Claim theorems -/

/-- Every candle of the list carries the stated `symbol`, `exchange` and
`timeframe`. -/
def candleTagged (symbol exchange timeframe : String) (cs : List Candle) : Prop :=
  ∀ c ∈ cs, c.symbol = symbol ∧ c.exchange = exchange ∧ c.timeframe = timeframe

/-- **C1.** For every adapter and every request, every Candle returned by
`get_candles` has `symbol` equal to the request's symbol, `exchange` equal to
the adapter's fixed lowercase identifier, and `timeframe` equal to the
request's timeframe, regardless of the response payload's contents. -/
theorem get_candles_round_trips_request_fields :
    (∀ http s t a b cs, BinanceExchange.get_candles http s t a b = .ok cs →
      candleTagged s "binance" t cs) ∧
    (∀ http s t a b cs, BitgetExchange.get_candles http s t a b = .ok cs →
      candleTagged s "bitget" t cs) ∧
    (∀ http s t a b cs, BybitExchange.get_candles http s t a b = .ok cs →
      candleTagged s "bybit" t cs) ∧
    (∀ http s t a b cs, CryptoComExchange.get_candles http s t a b = .ok cs →
      candleTagged s "crypto_com" t cs) ∧
    (∀ http s t a b cs, FoxbitExchange.get_candles http s t a b = .ok cs →
      candleTagged s "foxbit" t cs) ∧
    (∀ http s t a b cs, MercadoBitcoinExchange.get_candles http s t a b = .ok cs →
      candleTagged s "mercado_bitcoin" t cs) ∧
    (∀ http s t a b cs, MEXCExchange.get_candles http s t a b = .ok cs →
      candleTagged s "mexc" t cs) ∧
    (∀ http s t a b cs, NovadaxExchange.get_candles http s t a b = .ok cs →
      candleTagged s "novadax" t cs) ∧
    (∀ http s t a b cs, OKXExchange.get_candles http s t a b = .ok cs →
      candleTagged s "okx" t cs) := by
  refine ⟨?_, ?_, ?_, ?_, ?_, ?_, ?_, ?_, ?_⟩
  · intro http s t a b cs h
    simp only [BinanceExchange.get_candles] at h
    rw [catchAll_ok_iff] at h
    obtain ⟨_, _, h⟩ := ebind_ok_iff.mp h
    obtain ⟨_, _, h⟩ := ebind_ok_iff.mp h
    exact build_loop_mem h
  · intro http s t a b cs h
    simp only [BitgetExchange.get_candles] at h
    rw [catchAll_ok_iff] at h
    obtain ⟨_, _, h⟩ := ebind_ok_iff.mp h
    obtain ⟨_, _, h⟩ := ebind_ok_iff.mp h
    obtain ⟨_, _, h⟩ := ebind_ok_iff.mp h
    obtain ⟨_, _, h⟩ := ebind_ok_iff.mp h
    exact build_loop_mem h
  · intro http s t a b cs h
    simp only [BybitExchange.get_candles] at h
    rw [catchAll_ok_iff] at h
    obtain ⟨_, _, h⟩ := ebind_ok_iff.mp h
    obtain ⟨_, _, h⟩ := ebind_ok_iff.mp h
    obtain ⟨_, _, h⟩ := ebind_ok_iff.mp h
    obtain ⟨_, _, h⟩ := ebind_ok_iff.mp h
    obtain ⟨_, _, h⟩ := ebind_ok_iff.mp h
    exact build_loop_mem h
  · intro http s t a b cs h
    simp only [CryptoComExchange.get_candles] at h
    rw [catchAll_ok_iff] at h
    obtain ⟨_, _, h⟩ := ebind_ok_iff.mp h
    obtain ⟨_, _, h⟩ := ebind_ok_iff.mp h
    obtain ⟨_, _, h⟩ := ebind_ok_iff.mp h
    obtain ⟨_, _, h⟩ := ebind_ok_iff.mp h
    obtain ⟨_, _, h⟩ := ebind_ok_iff.mp h
    exact build_loop_mem h
  · intro http s t a b cs h
    simp only [FoxbitExchange.get_candles] at h
    rw [catchAll_ok_iff] at h
    obtain ⟨_, _, h⟩ := ebind_ok_iff.mp h
    obtain ⟨_, _, h⟩ := ebind_ok_iff.mp h
    exact build_loop_mem h
  · intro http s t a b cs h
    simp only [MercadoBitcoinExchange.get_candles] at h
    rw [catchAll_ok_iff] at h
    obtain ⟨_, _, h⟩ := ebind_ok_iff.mp h
    obtain ⟨_, _, h⟩ := ebind_ok_iff.mp h
    obtain ⟨_, _, h⟩ := ebind_ok_iff.mp h
    obtain ⟨_, _, h⟩ := ebind_ok_iff.mp h
    obtain ⟨_, _, h⟩ := ebind_ok_iff.mp h
    obtain ⟨_, _, h⟩ := ebind_ok_iff.mp h
    obtain ⟨_, _, h⟩ := ebind_ok_iff.mp h
    obtain ⟨_, _, h⟩ := ebind_ok_iff.mp h
    exact build_loop_mem h
  · intro http s t a b cs h
    simp only [MEXCExchange.get_candles] at h
    rw [catchAll_ok_iff] at h
    obtain ⟨_, _, h⟩ := ebind_ok_iff.mp h
    obtain ⟨_, _, h⟩ := ebind_ok_iff.mp h
    obtain ⟨_, _, h⟩ := ebind_ok_iff.mp h
    exact build_loop_mem h
  · intro http s t a b cs h
    simp only [NovadaxExchange.get_candles] at h
    rw [catchAll_ok_iff] at h
    obtain ⟨_, _, h⟩ := ebind_ok_iff.mp h
    obtain ⟨_, _, h⟩ := ebind_ok_iff.mp h
    obtain ⟨_, _, h⟩ := ebind_ok_iff.mp h
    obtain ⟨_, _, h⟩ := ebind_ok_iff.mp h
    exact build_loop_mem h
  · intro http s t a b cs h
    simp only [OKXExchange.get_candles] at h
    rw [catchAll_ok_iff] at h
    obtain ⟨_, _, h⟩ := ebind_ok_iff.mp h
    obtain ⟨_, _, h⟩ := ebind_ok_iff.mp h
    obtain ⟨_, _, h⟩ := ebind_ok_iff.mp h
    obtain ⟨_, _, h⟩ := ebind_ok_iff.mp h
    exact build_loop_mem h

/-- The raw kline row of the spec's Binance scenario. -/
def binanceKlineRow : JValue :=
  .arr [.num 1625097600000, .str "35000.0", .str "36000.0", .str "34000.0",
        .str "35500.0", .str "100.0", .num 1625097899999, .str "3500000.0",
        .num 100, .str "50.0", .str "1750000.0", .str "0"]

/-- A transport returning one page with exactly the scenario kline row. -/
def httpBinanceKlines : Http := fun _ => .ok (.arr [binanceKlineRow])

/-- **C6.** Parsing the scenario kline row under request
`symbol="BTC-BRL", timeframe="1h"` produces exactly one Candle with the
timestamp for epoch-ms 1625097600000 (index 0 divided by 1000),
`open=35000, high=36000, low=34000, close=35500, volume=100`,
`quote_volume=3500000` (field index 7), `symbol="BTC-BRL"`,
`exchange="binance"`, `timeframe="1h"`. -/
theorem binance_scenario_row_parse :
    BinanceExchange.get_candles httpBinanceKlines "BTC-BRL" "1h" 0 1 =
      .ok [⟨1625097600, 35000, 36000, 34000, 35500, 100,
            "BTC-BRL", "binance", "1h", some 3500000⟩] := by
  have hrow : BinanceExchange.row_fields binanceKlineRow =
      .ok ⟨1625097600, 35000, 36000, 34000, 35500, 100, 3500000⟩ := by
    show Except.ok (⟨(1625097600000 : ℚ)/1000,
      (35000:ℚ)+0/10^1, (36000:ℚ)+0/10^1, (34000:ℚ)+0/10^1, (35500:ℚ)+0/10^1,
      (100:ℚ)+0/10^1, (3500000:ℚ)+0/10^1⟩ : RowFields) = _
    norm_num
  simp only [BinanceExchange.get_candles, httpBinanceKlines, BinanceExchange._make_request,
    jIter, emap, ebind, hrow, catchAll, buildCandle]

/-- An OKX history-candles page with one row (string timestamp, numeric
prices), used to witness the C1 field round-trip on a successful call. -/
def okxCandleRow : JValue :=
  .arr [.str "1625097600000", .num 35000, .num 36000, .num 34000,
        .num 35500, .num 100, .num 3500000, .num 0]

def httpOkxCandles : Http := fun _ => .ok (.obj [("data", .arr [okxCandleRow])])

/-- Witness for C1: a concrete successful `get_candles` call whose result
fields round-trip the request. -/
theorem get_candles_round_trips_request_fields_witness :
    OKXExchange.get_candles httpOkxCandles "BTC-BRL" "1h" 0 1 =
      .ok [⟨1625097600, 35000, 36000, 34000, 35500, 100,
            "BTC-BRL", "okx", "1h", some 3500000⟩] ∧
    candleTagged "BTC-BRL" "okx" "1h"
      [⟨1625097600, 35000, 36000, 34000, 35500, 100,
        "BTC-BRL", "okx", "1h", some 3500000⟩] := by
  have heval : OKXExchange.get_candles httpOkxCandles "BTC-BRL" "1h" 0 1 =
      .ok [⟨1625097600, 35000, 36000, 34000, 35500, 100,
            "BTC-BRL", "okx", "1h", some 3500000⟩] := by
    have hrow : OKXExchange.row_fields okxCandleRow =
        .ok ⟨1625097600, 35000, 36000, 34000, 35500, 100, 3500000⟩ := by
      show Except.ok (⟨(((1625097600000 : ℤ) : ℚ))/1000,
        (35000:ℚ), (36000:ℚ), (34000:ℚ), (35500:ℚ), (100:ℚ), (3500000:ℚ)⟩ : RowFields) = _
      norm_num
    have htf : OKXExchange._convert_timeframe "1h" = .ok "1H" := rfl
    have hkey : jGetKey (.obj [("data", .arr [okxCandleRow])]) "data" =
        .ok (.arr [okxCandleRow]) := rfl
    simp only [OKXExchange.get_candles, httpOkxCandles, OKXExchange._make_request,
      htf, hkey, jIter, emap, ebind, hrow, catchAll, buildCandle]
  exact ⟨heval, get_candles_round_trips_request_fields.2.2.2.2.2.2.2.2 _ _ _ _ _ _ heval⟩

theorem jGetKey_single {k : String} {v : JValue} : jGetKey (.obj [(k, v)]) k = .ok v := by
  simp [jGetKey, List.lookup]

theorem append_dash_brl (x : String) : x ++ "-" ++ "BRL" = x ++ "-BRL" := by
  have h : ("-" ++ "BRL" : String) = "-BRL" := rfl
  rw [String.append_assoc, h]

/-- Characterization of the `quoteX == 'BRL'` filter plus
`f"{baseX}-{quoteX}"` reshape shared by Bitget, Bybit and OKX (field names
passed in). -/
theorem quote_loop_iff (qf bf : String) {r : JValue} {p : String} :
    ((ebind (jGetKey r qf) fun q => .ok (jEqStr q "BRL")) = .ok true ∧
     (ebind (jGetKey r bf) fun b => ebind (jGetKey r qf) fun q =>
       .ok (jStr b ++ "-" ++ jStr q)) = .ok p) ↔
    (jGetKey r qf = .ok (.str "BRL") ∧
     ∃ bv, jGetKey r bf = .ok bv ∧ p = jStr bv ++ "-BRL") := by
  constructor
  · rintro ⟨hcond, hmk⟩
    obtain ⟨q, hq, h2⟩ := ebind_ok_iff.mp hcond
    simp only [Except.ok.injEq] at h2
    obtain rfl := jEqStr_true_iff.mp h2
    obtain ⟨bv, hb, h3⟩ := ebind_ok_iff.mp hmk
    obtain ⟨q2, hq2, h4⟩ := ebind_ok_iff.mp h3
    rw [hq] at hq2
    simp only [Except.ok.injEq] at hq2 h4
    subst hq2
    refine ⟨hq, bv, hb, ?_⟩
    rw [← h4]
    show jStr bv ++ "-" ++ "BRL" = jStr bv ++ "-BRL"
    exact append_dash_brl _
  · rintro ⟨hq, bv, hb, rfl⟩
    refine ⟨?_, ?_⟩
    · rw [ebind_of_ok hq]; rfl
    · rw [ebind_of_ok hb, ebind_of_ok hq, ← append_dash_brl]; rfl

/-- Characterization of the MEXC filter (`status == "1" and
quoteAsset == "BRL"`, short-circuiting) plus reshape. -/
theorem mexc_loop_iff {r : JValue} {p : String} :
    (MEXCExchange.pair_cond r = .ok true ∧ MEXCExchange.pair_value r = .ok p) ↔
    (jGetKey r "status" = .ok (.str "1") ∧ jGetKey r "quoteAsset" = .ok (.str "BRL") ∧
     ∃ bv, jGetKey r "baseAsset" = .ok bv ∧ p = jStr bv ++ "-BRL") := by
  constructor
  · rintro ⟨hcond, hmk⟩
    obtain ⟨st, hst, h2⟩ := ebind_ok_iff.mp hcond
    by_cases hb : jEqStr st "1" = true
    · obtain rfl := jEqStr_true_iff.mp hb
      rw [if_pos hb] at h2
      obtain ⟨q, hq, h3⟩ := ebind_ok_iff.mp h2
      simp only [Except.ok.injEq] at h3
      obtain rfl := jEqStr_true_iff.mp h3
      obtain ⟨bv, hbase, h4⟩ := ebind_ok_iff.mp hmk
      obtain ⟨q2, hq2, h5⟩ := ebind_ok_iff.mp h4
      rw [hq] at hq2
      simp only [Except.ok.injEq] at hq2 h5
      subst hq2
      refine ⟨hst, hq, bv, hbase, ?_⟩
      rw [← h5]
      show jStr bv ++ "-" ++ "BRL" = jStr bv ++ "-BRL"
      exact append_dash_brl _
    · rw [if_neg hb] at h2
      simp only [Except.ok.injEq] at h2
      exact absurd h2.symm (by simp)
  · rintro ⟨hst, hq, bv, hbase, rfl⟩
    refine ⟨?_, ?_⟩
    · rw [MEXCExchange.pair_cond, ebind_of_ok hst]
      have h1 : jEqStr (.str "1") "1" = true := rfl
      rw [if_pos h1, ebind_of_ok hq]; rfl
    · rw [MEXCExchange.pair_value, ebind_of_ok hbase, ebind_of_ok hq, ← append_dash_brl]; rfl

/-- Characterization of the Binance filter (`symbol.endswith("BRL") and
status == "TRADING"`, short-circuiting) plus `replace("BRL", "-BRL")`
reshape. -/
theorem binance_loop_iff {r : JValue} {p : String} :
    (BinanceExchange.pair_cond r = .ok true ∧ BinanceExchange.pair_value r = .ok p) ↔
    (∃ s, jGetKey r "symbol" = .ok (.str s) ∧ pyEndsWith s "BRL" = true ∧
      jGetKey r "status" = .ok (.str "TRADING") ∧ p = pyReplace s "BRL" "-BRL") := by
  constructor
  · rintro ⟨hcond, hmk⟩
    obtain ⟨sv, hs, h2⟩ := ebind_ok_iff.mp hcond
    obtain ⟨b, hb, h3⟩ := ebind_ok_iff.mp h2
    cases sv with
    | str s =>
        simp only [jEndsWith, Except.ok.injEq] at hb
        subst hb
        by_cases hend : pyEndsWith s "BRL" = true
        · rw [if_pos hend] at h3
          obtain ⟨st, hst, h4⟩ := ebind_ok_iff.mp h3
          simp only [Except.ok.injEq] at h4
          obtain rfl := jEqStr_true_iff.mp h4
          obtain ⟨sv2, hs2, h5⟩ := ebind_ok_iff.mp hmk
          rw [hs] at hs2
          simp only [Except.ok.injEq] at hs2
          subst hs2
          simp only [jReplace, Except.ok.injEq] at h5
          exact ⟨s, hs, hend, hst, h5.symm⟩
        · rw [if_neg (by simpa using hend)] at h3
          simp only [Except.ok.injEq] at h3
          exact absurd h3.symm (by simp)
    | null => simp [jEndsWith] at hb
    | bool b' => simp [jEndsWith] at hb
    | num q => simp [jEndsWith] at hb
    | arr xs => simp [jEndsWith] at hb
    | obj fs => simp [jEndsWith] at hb
  · rintro ⟨s, hs, hend, hst, rfl⟩
    refine ⟨?_, ?_⟩
    · rw [BinanceExchange.pair_cond, ebind_of_ok hs]
      show ebind (.ok (pyEndsWith s "BRL")) _ = _
      rw [hend]
      show ebind (jGetKey r "status") _ = _
      rw [ebind_of_ok hst]; rfl
    · rw [BinanceExchange.pair_value, ebind_of_ok hs]; rfl

/-- Characterization of the Crypto.com filter (`ticker["i"].endswith("_BRL")`)
plus `replace("_BRL", "") + "-BRL"` reshape. -/
theorem cryptocom_loop_iff {r : JValue} {p : String} :
    (CryptoComExchange.pair_cond r = .ok true ∧ CryptoComExchange.pair_value r = .ok p) ↔
    (∃ s, jGetKey r "i" = .ok (.str s) ∧ pyEndsWith s "_BRL" = true ∧
      p = pyReplace s "_BRL" "" ++ "-BRL") := by
  constructor
  · rintro ⟨hcond, hmk⟩
    obtain ⟨sv, hs, h2⟩ := ebind_ok_iff.mp hcond
    cases sv with
    | str s =>
        simp only [jEndsWith, Except.ok.injEq] at h2
        obtain ⟨sv2, hs2, h3⟩ := ebind_ok_iff.mp hmk
        rw [hs] at hs2
        simp only [Except.ok.injEq] at hs2
        subst hs2
        obtain ⟨base, hbase, h4⟩ := ebind_ok_iff.mp h3
        simp only [jReplace, Except.ok.injEq] at hbase h4
        exact ⟨s, hs, h2, by rw [← h4, hbase]⟩
    | null => simp [jEndsWith] at h2
    | bool b' => simp [jEndsWith] at h2
    | num q => simp [jEndsWith] at h2
    | arr xs => simp [jEndsWith] at h2
    | obj fs => simp [jEndsWith] at h2
  · rintro ⟨s, hs, hend, rfl⟩
    refine ⟨?_, ?_⟩
    · rw [CryptoComExchange.pair_cond, ebind_of_ok hs]
      show Except.ok (pyEndsWith s "_BRL") = _
      rw [hend]
    · rw [CryptoComExchange.pair_value, ebind_of_ok hs]; rfl

/-- Characterization of the Foxbit loop: no filter, the catalog's own
`symbol` value returned untouched. -/
theorem foxbit_loop_iff {r : JValue} {p : String} :
    (FoxbitExchange.pair_cond r = .ok true ∧ FoxbitExchange.pair_value r = .ok p) ↔
    jGetKey r "symbol" = .ok (.str p) := by
  constructor
  · rintro ⟨_, hmk⟩
    obtain ⟨sv, hs, h2⟩ := ebind_ok_iff.mp hmk
    cases sv with
    | str s => simp only [Except.ok.injEq] at h2; subst h2; exact hs
    | null => cases h2
    | bool b' => cases h2
    | num q => cases h2
    | arr xs => cases h2
    | obj fs => cases h2
  · intro hs
    exact ⟨rfl, by rw [FoxbitExchange.pair_value, ebind_of_ok hs]⟩

/-- Characterization of the Novadax loop: no quote filter at all, every
catalog `symbol` kept with `_` replaced by `-`. -/
theorem novadax_loop_iff {r : JValue} {p : String} :
    (NovadaxExchange.pair_cond r = .ok true ∧ NovadaxExchange.pair_value r = .ok p) ↔
    (∃ s, jGetKey r "symbol" = .ok (.str s) ∧ p = pyReplace s "_" "-") := by
  constructor
  · rintro ⟨_, hmk⟩
    obtain ⟨sv, hs, h2⟩ := ebind_ok_iff.mp hmk
    cases sv with
    | str s =>
        simp only [jReplace, Except.ok.injEq] at h2
        exact ⟨s, hs, h2.symm⟩
    | null => cases h2
    | bool b' => cases h2
    | num q => cases h2
    | arr xs => cases h2
    | obj fs => cases h2
  · rintro ⟨s, hs, rfl⟩
    exact ⟨rfl, by rw [NovadaxExchange.pair_value, ebind_of_ok hs]; rfl⟩

/-- Characterization of the Mercado Bitcoin pandas pipeline: exactly the
records whose `type` field equals `"CRYPTO"` contribute their `symbol`. -/
theorem mercado_pairs_records_iff {rows : List JValue} {ps : List String}
    (h : MercadoBitcoinExchange.pairs_from_records rows = .ok ps) (p : String) :
    p ∈ ps ↔ ∃ r ∈ rows, jFieldEq r "type" "CRYPTO" = true ∧
      jLookup r "symbol" = some (.str p) := by
  unfold MercadoBitcoinExchange.pairs_from_records at h
  split_ifs at h
  rw [emap_mem_iff h]
  constructor
  · rintro ⟨r, hr, hfx⟩
    rw [List.mem_filter] at hr
    refine ⟨r, hr.1, hr.2, ?_⟩
    cases hl : jLookup r "symbol" with
    | none => rw [hl] at hfx; cases hfx
    | some v =>
        cases v with
        | str s =>
            rw [hl] at hfx
            simp only [Except.ok.injEq] at hfx
            subst hfx
            rfl
        | null => rw [hl] at hfx; cases hfx
        | bool b' => rw [hl] at hfx; cases hfx
        | num q => rw [hl] at hfx; cases hfx
        | arr xs => rw [hl] at hfx; cases hfx
        | obj fs => rw [hl] at hfx; cases hfx
  · rintro ⟨r, hr, htype, hsym⟩
    refine ⟨r, List.mem_filter.mpr ⟨hr, htype⟩, ?_⟩
    rw [hsym]

/-- A Novadax catalog whose only instrument is quoted in USDT, not BRL. -/
def novadaxCatalogUSDT : Http :=
  fun _ => .ok (.obj [("data", .arr [.obj [("symbol", .str "BTC_USDT")]])])

/-- **C2 counterexample.** The claim says every adapter other than Binance,
Foxbit and Mercado Bitcoin keeps only catalog entries whose quote-currency
field equals `"BRL"`; on a Novadax catalog whose single entry is quoted in
USDT the result would then be empty, but `get_supported_pairs` keeps the
entry (Novadax applies no quote filter at all). -/
theorem novadax_pairs_keep_usdt_counterexample :
    NovadaxExchange.get_supported_pairs novadaxCatalogUSDT = .ok ["BTC-USDT"] := rfl

/-- **C2 (amended).** Pair discovery per adapter, on a catalog of `rows`:
Bitget, Bybit and OKX keep exactly the entries whose quote-currency field
(`quoteCoin`/`quoteCcy`) equals `"BRL"` and reshape to `BASE-BRL`; MEXC does
the same but additionally requires `status == "1"`; Crypto.com filters by the
`"_BRL"` suffix of the instrument name (not by a quote-currency field);
Binance filters by the `"BRL"` symbol suffix together with
`status == "TRADING"`; Foxbit returns the catalog's own symbol untouched with
no filter; Novadax applies no quote filter at all and returns every catalog
symbol with `_` replaced by `-`; Mercado Bitcoin keeps exactly the entries
whose instrument-type field equals `"CRYPTO"`.  All results are
lexicographically sorted. -/
theorem get_supported_pairs_filters :
    (∀ (http : Http) rows pairs,
      http ⟨"GET", "https://api.bitget.com/api/v2/" ++ "spot/public/symbols", []⟩ =
        .ok (.obj [("data", .arr rows)]) →
      BitgetExchange.get_supported_pairs http = .ok pairs →
      List.Sorted strLeP pairs ∧ ∀ p, p ∈ pairs ↔ ∃ r ∈ rows,
        jGetKey r "quoteCoin" = .ok (.str "BRL") ∧
        ∃ bv, jGetKey r "baseCoin" = .ok bv ∧ p = jStr bv ++ "-BRL") ∧
    (∀ (http : Http) rows pairs,
      http ⟨"GET", "https://api.bybit.com/v5/" ++ "market/instruments-info",
        [("category", .str "spot")]⟩ = .ok (.obj [("result", .obj [("list", .arr rows)])]) →
      BybitExchange.get_supported_pairs http = .ok pairs →
      List.Sorted strLeP pairs ∧ ∀ p, p ∈ pairs ↔ ∃ r ∈ rows,
        jGetKey r "quoteCoin" = .ok (.str "BRL") ∧
        ∃ bv, jGetKey r "baseCoin" = .ok bv ∧ p = jStr bv ++ "-BRL") ∧
    (∀ (http : Http) rows pairs,
      http ⟨"GET", "https://www.okx.com/api/v5/" ++ "public/instruments",
        [("instType", .str "SPOT")]⟩ = .ok (.obj [("data", .arr rows)]) →
      OKXExchange.get_supported_pairs http = .ok pairs →
      List.Sorted strLeP pairs ∧ ∀ p, p ∈ pairs ↔ ∃ r ∈ rows,
        jGetKey r "quoteCcy" = .ok (.str "BRL") ∧
        ∃ bv, jGetKey r "baseCcy" = .ok bv ∧ p = jStr bv ++ "-BRL") ∧
    (∀ (http : Http) rows pairs,
      http ⟨"GET", "https://api.mexc.com/api/v3/" ++ "exchangeInfo", []⟩ =
        .ok (.obj [("symbols", .arr rows)]) →
      MEXCExchange.get_supported_pairs http = .ok pairs →
      List.Sorted strLeP pairs ∧ ∀ p, p ∈ pairs ↔ ∃ r ∈ rows,
        jGetKey r "status" = .ok (.str "1") ∧ jGetKey r "quoteAsset" = .ok (.str "BRL") ∧
        ∃ bv, jGetKey r "baseAsset" = .ok bv ∧ p = jStr bv ++ "-BRL") ∧
    (∀ (http : Http) rows pairs,
      http ⟨"GET", "https://api.crypto.com/v2/" ++ "public/get-ticker", []⟩ =
        .ok (.obj [("result", .obj [("data", .arr rows)])]) →
      CryptoComExchange.get_supported_pairs http = .ok pairs →
      List.Sorted strLeP pairs ∧ ∀ p, p ∈ pairs ↔ ∃ r ∈ rows,
        ∃ s, jGetKey r "i" = .ok (.str s) ∧ pyEndsWith s "_BRL" = true ∧
          p = pyReplace s "_BRL" "" ++ "-BRL") ∧
    (∀ (http : Http) rows pairs,
      http ⟨"GET", "https://api.binance.com/api/v3/" ++ "exchangeInfo", []⟩ =
        .ok (.obj [("symbols", .arr rows)]) →
      BinanceExchange.get_supported_pairs http = .ok pairs →
      List.Sorted strLeP pairs ∧ ∀ p, p ∈ pairs ↔ ∃ r ∈ rows,
        ∃ s, jGetKey r "symbol" = .ok (.str s) ∧ pyEndsWith s "BRL" = true ∧
          jGetKey r "status" = .ok (.str "TRADING") ∧ p = pyReplace s "BRL" "-BRL") ∧
    (∀ (http : Http) rows pairs,
      http ⟨"GET", "https://api.foxbit.com.br/rest/v3/" ++ "markets", []⟩ =
        .ok (.obj [("data", .arr rows)]) →
      FoxbitExchange.get_supported_pairs http = .ok pairs →
      List.Sorted strLeP pairs ∧ ∀ p, p ∈ pairs ↔ ∃ r ∈ rows,
        jGetKey r "symbol" = .ok (.str p)) ∧
    (∀ (http : Http) rows pairs,
      http ⟨"GET", "https://api.novadax.com/v1/" ++ "common/symbols", []⟩ =
        .ok (.obj [("data", .arr rows)]) →
      NovadaxExchange.get_supported_pairs http = .ok pairs →
      List.Sorted strLeP pairs ∧ ∀ p, p ∈ pairs ↔ ∃ r ∈ rows,
        ∃ s, jGetKey r "symbol" = .ok (.str s) ∧ p = pyReplace s "_" "-") ∧
    (∀ (http : Http) rows pairs,
      http ⟨"GET", "https://api.mercadobitcoin.net/api/v4/" ++ "symbols", []⟩ =
        .ok (.arr rows) →
      MercadoBitcoinExchange.get_supported_pairs http = .ok pairs →
      List.Sorted strLeP pairs ∧ ∀ p, p ∈ pairs ↔ ∃ r ∈ rows,
        jFieldEq r "type" "CRYPTO" = true ∧ jLookup r "symbol" = some (.str p)) := by
  refine ⟨?_, ?_, ?_, ?_, ?_, ?_, ?_, ?_, ?_⟩
  · intro http rows pairs hhttp hok
    simp only [BitgetExchange.get_supported_pairs] at hok
    rw [catchAll_ok_iff] at hok
    simp only [BitgetExchange._make_request, hhttp, jGetKey_single, jIter, ebind] at hok
    obtain ⟨hsort, hmem⟩ := sortedPairs_spec hok
    refine ⟨hsort, fun p => (hmem p).trans ?_⟩
    exact exists_congr fun r => and_congr_right fun _ => quote_loop_iff "quoteCoin" "baseCoin"
  · intro http rows pairs hhttp hok
    simp only [BybitExchange.get_supported_pairs] at hok
    rw [catchAll_ok_iff] at hok
    simp only [BybitExchange._make_request, hhttp, jGetKey_single, jIter, ebind] at hok
    obtain ⟨hsort, hmem⟩ := sortedPairs_spec hok
    refine ⟨hsort, fun p => (hmem p).trans ?_⟩
    exact exists_congr fun r => and_congr_right fun _ => quote_loop_iff "quoteCoin" "baseCoin"
  · intro http rows pairs hhttp hok
    simp only [OKXExchange.get_supported_pairs] at hok
    rw [catchAll_ok_iff] at hok
    simp only [OKXExchange._make_request, hhttp, jGetKey_single, jIter, ebind] at hok
    obtain ⟨hsort, hmem⟩ := sortedPairs_spec hok
    refine ⟨hsort, fun p => (hmem p).trans ?_⟩
    exact exists_congr fun r => and_congr_right fun _ => quote_loop_iff "quoteCcy" "baseCcy"
  · intro http rows pairs hhttp hok
    simp only [MEXCExchange.get_supported_pairs] at hok
    rw [catchAll_ok_iff] at hok
    simp only [MEXCExchange._make_request, hhttp, jGetKey_single, jIter, ebind] at hok
    obtain ⟨hsort, hmem⟩ := sortedPairs_spec hok
    refine ⟨hsort, fun p => (hmem p).trans ?_⟩
    exact exists_congr fun r => and_congr_right fun _ => mexc_loop_iff
  · intro http rows pairs hhttp hok
    simp only [CryptoComExchange.get_supported_pairs] at hok
    rw [catchAll_ok_iff] at hok
    simp only [CryptoComExchange._make_request, hhttp, jGetKey_single, jIter, ebind] at hok
    obtain ⟨hsort, hmem⟩ := sortedPairs_spec hok
    refine ⟨hsort, fun p => (hmem p).trans ?_⟩
    exact exists_congr fun r => and_congr_right fun _ => cryptocom_loop_iff
  · intro http rows pairs hhttp hok
    simp only [BinanceExchange.get_supported_pairs] at hok
    rw [catchApiOnly_ok_iff] at hok
    simp only [BinanceExchange._make_request, hhttp, jGetKey_single, jIter, ebind] at hok
    obtain ⟨hsort, hmem⟩ := sortedPairs_spec hok
    refine ⟨hsort, fun p => (hmem p).trans ?_⟩
    exact exists_congr fun r => and_congr_right fun _ => binance_loop_iff
  · intro http rows pairs hhttp hok
    simp only [FoxbitExchange.get_supported_pairs] at hok
    rw [catchAll_ok_iff] at hok
    simp only [FoxbitExchange._make_request, hhttp, jGetKey_single, jIter, ebind] at hok
    obtain ⟨hsort, hmem⟩ := sortedPairs_spec hok
    refine ⟨hsort, fun p => (hmem p).trans ?_⟩
    exact exists_congr fun r => and_congr_right fun _ => foxbit_loop_iff
  · intro http rows pairs hhttp hok
    simp only [NovadaxExchange.get_supported_pairs] at hok
    rw [catchAll_ok_iff] at hok
    simp only [NovadaxExchange._make_request, hhttp, jGetKey_single, jIter, ebind] at hok
    obtain ⟨hsort, hmem⟩ := sortedPairs_spec hok
    refine ⟨hsort, fun p => (hmem p).trans ?_⟩
    exact exists_congr fun r => and_congr_right fun _ => novadax_loop_iff
  · intro http rows pairs hhttp hok
    simp only [MercadoBitcoinExchange.get_supported_pairs] at hok
    rw [catchAll_ok_iff] at hok
    simp only [MercadoBitcoinExchange._make_request, hhttp, jIter, ebind] at hok
    obtain ⟨ps0, hps0, h2⟩ := ebind_ok_iff.mp hok
    cases h2
    exact ⟨pySorted_sorted _, fun p => mem_pySorted.trans (mercado_pairs_records_iff hps0 p)⟩

/-- A Bitget instrument catalog with one BRL-quoted and one USDT-quoted
entry. -/
def bitgetCatalogHttp : Http :=
  fun _ => .ok (.obj [("data", .arr
    [.obj [("baseCoin", .str "BTC"), ("quoteCoin", .str "BRL")],
     .obj [("baseCoin", .str "ETH"), ("quoteCoin", .str "USDT")]])])

/-- Witness for C2: on a concrete Bitget catalog the BRL-quoted entry is kept,
the USDT-quoted entry dropped, and the result is sorted. -/
theorem get_supported_pairs_filters_witness :
    BitgetExchange.get_supported_pairs bitgetCatalogHttp = .ok ["BTC-BRL"] ∧
    List.Sorted strLeP ["BTC-BRL"] := by
  have heval : BitgetExchange.get_supported_pairs bitgetCatalogHttp = .ok ["BTC-BRL"] := rfl
  exact ⟨heval, (get_supported_pairs_filters.1 bitgetCatalogHttp _ _ rfl heval).1⟩

/-- **C3.** Adapters with a translation-table lookup (Bitget, Bybit,
Crypto.com, MEXC, Novadax, OKX) reject a timeframe outside the table with the
adapter-specific error irrespective of the transport (so before any HTTP
request); the identity-passthrough adapters (Binance, Foxbit, Mercado
Bitcoin) perform no such rejection — an empty successful page yields `.ok []`
for every timeframe string — and the unmapped string is placed verbatim in
the outgoing request's `interval`/`resolution` parameter. -/
theorem unsupported_timeframe_rejection :
    (∀ (http : Http) s t a b, BitgetExchange._supported_timeframes.lookup t = none →
      BitgetExchange.get_candles http s t a b =
        .error (.apiError "bitget" ("Error getting candles from Bitget: Unsupported timeframe: " ++ t))) ∧
    (∀ (http : Http) s t a b, BybitExchange._supported_timeframes.lookup t = none →
      BybitExchange.get_candles http s t a b =
        .error (.apiError "bybit" ("Error getting candles from Bybit: Unsupported timeframe: " ++ t))) ∧
    (∀ (http : Http) s t a b, CryptoComExchange._supported_timeframes.lookup t = none →
      CryptoComExchange.get_candles http s t a b =
        .error (.apiError "crypto_com" ("Failed to fetch candles: Unsupported timeframe: " ++ t))) ∧
    (∀ (http : Http) s t a b, MEXCExchange._supported_timeframes.lookup t = none →
      MEXCExchange.get_candles http s t a b =
        .error (.apiError "mexc" ("Error getting candles from MEXC: Unsupported timeframe: " ++ t))) ∧
    (∀ (http : Http) s t a b, NovadaxExchange._supported_timeframes.lookup t = none →
      NovadaxExchange.get_candles http s t a b =
        .error (.apiError "novadax" ("Error getting candles from Novadax: Unsupported timeframe: " ++ t))) ∧
    (∀ (http : Http) s t a b, OKXExchange._supported_timeframes.lookup t = none →
      OKXExchange.get_candles http s t a b =
        .error (.apiError "okx" ("Error getting candles from OKX: Unsupported timeframe: " ++ t))) ∧
    (∀ s t a b, BinanceExchange.get_candles (fun _ => .ok (.arr [])) s t a b = .ok []) ∧
    (∀ s t a b, FoxbitExchange.get_candles (fun _ => .ok (.arr [])) s t a b = .ok []) ∧
    (∀ s t a b, MercadoBitcoinExchange.get_candles (fun _ => .ok (.obj [])) s t a b = .ok []) ∧
    (∀ s t ms me, (BinanceExchange.klines_params (BinanceExchange._convert_symbol s)
        (BinanceExchange._convert_timeframe t) ms me).lookup "interval" = some (.str t)) ∧
    (∀ t ms me, (FoxbitExchange.candles_params
        (FoxbitExchange._convert_timeframe t) ms me).lookup "interval" = some (.str t)) ∧
    (∀ s t ts te, (MercadoBitcoinExchange.candles_params (MercadoBitcoinExchange._convert_symbol s)
        (MercadoBitcoinExchange._convert_timeframe t) ts te).lookup "resolution" = some (.str t)) := by
  refine ⟨?_, ?_, ?_, ?_, ?_, ?_, ?_, ?_, ?_, ?_, ?_, ?_⟩
  · intro http s t a b hnone
    simp [BitgetExchange.get_candles, BitgetExchange._convert_timeframe, hnone,
      ebind, catchAll, excText]
    rw [← String.append_assoc]
    rfl
  · intro http s t a b hnone
    simp [BybitExchange.get_candles, BybitExchange._convert_timeframe, hnone,
      ebind, catchAll, excText]
    rw [← String.append_assoc]
    rfl
  · intro http s t a b hnone
    simp [CryptoComExchange.get_candles, CryptoComExchange._convert_timeframe, hnone,
      ebind, catchAll, excText]
    rw [← String.append_assoc]
    rfl
  · intro http s t a b hnone
    simp [MEXCExchange.get_candles, MEXCExchange._convert_timeframe, hnone,
      ebind, catchAll, excText]
    rw [← String.append_assoc]
    rfl
  · intro http s t a b hnone
    simp [NovadaxExchange.get_candles, NovadaxExchange._convert_timeframe, hnone,
      ebind, catchAll, excText]
    rw [← String.append_assoc]
    rfl
  · intro http s t a b hnone
    simp [OKXExchange.get_candles, OKXExchange._convert_timeframe, hnone,
      ebind, catchAll, excText]
    rw [← String.append_assoc]
    rfl
  · intro s t a b
    simp [BinanceExchange.get_candles, BinanceExchange._make_request,
      jIter, emap, ebind, catchAll]
  · intro s t a b
    simp [FoxbitExchange.get_candles, FoxbitExchange._make_request,
      jIter, emap, ebind, catchAll]
  · intro s t a b
    simp [MercadoBitcoinExchange.get_candles, MercadoBitcoinExchange._make_request,
      jGet, pyLen, List.range, emap, ebind, catchAll]
  · intro s t ms me
    simp [BinanceExchange.klines_params, BinanceExchange._convert_timeframe, List.lookup]
  · intro t ms me
    simp [FoxbitExchange.candles_params, FoxbitExchange._convert_timeframe, List.lookup]
  · intro s t ts te
    simp [MercadoBitcoinExchange.candles_params, MercadoBitcoinExchange._convert_timeframe,
      List.lookup]

/-- Witness for C3: `"2w"` is outside the Crypto.com table and the call fails
with the adapter error before consulting the transport. -/
theorem unsupported_timeframe_rejection_witness :
    CryptoComExchange._supported_timeframes.lookup "2w" = none ∧
    CryptoComExchange.get_candles (fun _ => .ok .null) "BTC-BRL" "2w" 0 1 =
      .error (.apiError "crypto_com" ("Failed to fetch candles: Unsupported timeframe: " ++ "2w")) :=
  ⟨rfl, unsupported_timeframe_rejection.2.2.1 (fun _ => .ok .null) "BTC-BRL" "2w" 0 1 rfl⟩

/-- **C4 counterexample.** The claim says every operation wraps any
payload-shape exception as the adapter-specific error kind; but
`BinanceExchange.get_supported_pairs` catches only `BinanceAPIError`, so on a
payload without the `"symbols"` key the raw `KeyError` escapes instead of a
`BinanceAPIError`. -/
theorem binance_pairs_raw_keyerror :
    BinanceExchange.get_supported_pairs (fun _ => .ok (.obj [])) =
      .error (.keyError "symbols") := rfl

/-- **C4 (amended).** Every adapter operation except Binance's
`get_supported_pairs` returns either a success or that adapter's single
error kind (`PyExc.apiError` with the adapter's tag); Binance's
`get_supported_pairs` catches only its own error class, so its outcomes are
success, a `"binance"`-tagged error, or a raw escaped exception that is not a
`BinanceAPIError`. -/
theorem adapter_errors_wrapped :
    (∀ (http : Http) s t a b, (∃ v, BinanceExchange.get_candles http s t a b = .ok v) ∨
      ∃ m, BinanceExchange.get_candles http s t a b = .error (.apiError "binance" m)) ∧
    (∀ (http : Http) s t a b, (∃ v, BitgetExchange.get_candles http s t a b = .ok v) ∨
      ∃ m, BitgetExchange.get_candles http s t a b = .error (.apiError "bitget" m)) ∧
    (∀ (http : Http) s t a b, (∃ v, BybitExchange.get_candles http s t a b = .ok v) ∨
      ∃ m, BybitExchange.get_candles http s t a b = .error (.apiError "bybit" m)) ∧
    (∀ (http : Http) s t a b, (∃ v, CryptoComExchange.get_candles http s t a b = .ok v) ∨
      ∃ m, CryptoComExchange.get_candles http s t a b = .error (.apiError "crypto_com" m)) ∧
    (∀ (http : Http) s t a b, (∃ v, FoxbitExchange.get_candles http s t a b = .ok v) ∨
      ∃ m, FoxbitExchange.get_candles http s t a b = .error (.apiError "foxbit" m)) ∧
    (∀ (http : Http) s t a b, (∃ v, MercadoBitcoinExchange.get_candles http s t a b = .ok v) ∨
      ∃ m, MercadoBitcoinExchange.get_candles http s t a b = .error (.apiError "mercado_bitcoin" m)) ∧
    (∀ (http : Http) s t a b, (∃ v, MEXCExchange.get_candles http s t a b = .ok v) ∨
      ∃ m, MEXCExchange.get_candles http s t a b = .error (.apiError "mexc" m)) ∧
    (∀ (http : Http) s t a b, (∃ v, NovadaxExchange.get_candles http s t a b = .ok v) ∨
      ∃ m, NovadaxExchange.get_candles http s t a b = .error (.apiError "novadax" m)) ∧
    (∀ (http : Http) s t a b, (∃ v, OKXExchange.get_candles http s t a b = .ok v) ∨
      ∃ m, OKXExchange.get_candles http s t a b = .error (.apiError "okx" m)) ∧
    (∀ (http : Http), (∃ v, BitgetExchange.get_supported_pairs http = .ok v) ∨
      ∃ m, BitgetExchange.get_supported_pairs http = .error (.apiError "bitget" m)) ∧
    (∀ (http : Http), (∃ v, BybitExchange.get_supported_pairs http = .ok v) ∨
      ∃ m, BybitExchange.get_supported_pairs http = .error (.apiError "bybit" m)) ∧
    (∀ (http : Http), (∃ v, CryptoComExchange.get_supported_pairs http = .ok v) ∨
      ∃ m, CryptoComExchange.get_supported_pairs http = .error (.apiError "crypto_com" m)) ∧
    (∀ (http : Http), (∃ v, FoxbitExchange.get_supported_pairs http = .ok v) ∨
      ∃ m, FoxbitExchange.get_supported_pairs http = .error (.apiError "foxbit" m)) ∧
    (∀ (http : Http), (∃ v, MercadoBitcoinExchange.get_supported_pairs http = .ok v) ∨
      ∃ m, MercadoBitcoinExchange.get_supported_pairs http = .error (.apiError "mercado_bitcoin" m)) ∧
    (∀ (http : Http), (∃ v, MEXCExchange.get_supported_pairs http = .ok v) ∨
      ∃ m, MEXCExchange.get_supported_pairs http = .error (.apiError "mexc" m)) ∧
    (∀ (http : Http), (∃ v, NovadaxExchange.get_supported_pairs http = .ok v) ∨
      ∃ m, NovadaxExchange.get_supported_pairs http = .error (.apiError "novadax" m)) ∧
    (∀ (http : Http), (∃ v, OKXExchange.get_supported_pairs http = .ok v) ∨
      ∃ m, OKXExchange.get_supported_pairs http = .error (.apiError "okx" m)) ∧
    (∀ (http : Http), (∃ v, BinanceExchange.get_supported_pairs http = .ok v) ∨
      (∃ m, BinanceExchange.get_supported_pairs http = .error (.apiError "binance" m)) ∨
      (∃ e, BinanceExchange.get_supported_pairs http = .error e ∧
        ∀ m, e ≠ .apiError "binance" m)) :=
  ⟨fun _ _ _ _ _ => catchAll_cases _ _ _,
   fun _ _ _ _ _ => catchAll_cases _ _ _,
   fun _ _ _ _ _ => catchAll_cases _ _ _,
   fun _ _ _ _ _ => catchAll_cases _ _ _,
   fun _ _ _ _ _ => catchAll_cases _ _ _,
   fun _ _ _ _ _ => catchAll_cases _ _ _,
   fun _ _ _ _ _ => catchAll_cases _ _ _,
   fun _ _ _ _ _ => catchAll_cases _ _ _,
   fun _ _ _ _ _ => catchAll_cases _ _ _,
   fun _ => catchAll_cases _ _ _,
   fun _ => catchAll_cases _ _ _,
   fun _ => catchAll_cases _ _ _,
   fun _ => catchAll_cases _ _ _,
   fun _ => catchAll_cases _ _ _,
   fun _ => catchAll_cases _ _ _,
   fun _ => catchAll_cases _ _ _,
   fun _ => catchAll_cases _ _ _,
   fun _ => catchApiOnly_cases _ _ _⟩

/-- **C5.** For every adapter, `validate_symbol` re-invokes
`get_supported_pairs` and answers membership in its result (true iff the
symbol is in the returned list), and `validate_timeframe` answers membership
in the local `get_supported_timeframes` list; both are the shared
`BaseExchange` defaults, which no adapter overrides. -/
theorem validate_defaults :
    (∀ (http : Http) s ps, OKXExchange.get_supported_pairs http = .ok ps →
      OKXExchange.validate_symbol http s = .ok (ps.contains s) ∧
        (ps.contains s = true ↔ s ∈ ps)) ∧
    (∀ t, OKXExchange.validate_timeframe t = true ↔
      t ∈ OKXExchange.get_supported_timeframes) ∧
    (∀ (http : Http) s ps, BinanceExchange.get_supported_pairs http = .ok ps →
      BinanceExchange.validate_symbol http s = .ok (ps.contains s) ∧
        (ps.contains s = true ↔ s ∈ ps)) ∧
    (∀ t, BinanceExchange.validate_timeframe t = true ↔
      t ∈ BinanceExchange.get_supported_timeframes) ∧
    (∀ (http : Http) s ps, BitgetExchange.get_supported_pairs http = .ok ps →
      BitgetExchange.validate_symbol http s = .ok (ps.contains s) ∧
        (ps.contains s = true ↔ s ∈ ps)) ∧
    (∀ t, BitgetExchange.validate_timeframe t = true ↔
      t ∈ BitgetExchange.get_supported_timeframes) ∧
    (∀ (http : Http) s ps, BybitExchange.get_supported_pairs http = .ok ps →
      BybitExchange.validate_symbol http s = .ok (ps.contains s) ∧
        (ps.contains s = true ↔ s ∈ ps)) ∧
    (∀ t, BybitExchange.validate_timeframe t = true ↔
      t ∈ BybitExchange.get_supported_timeframes) ∧
    (∀ (http : Http) s ps, CryptoComExchange.get_supported_pairs http = .ok ps →
      CryptoComExchange.validate_symbol http s = .ok (ps.contains s) ∧
        (ps.contains s = true ↔ s ∈ ps)) ∧
    (∀ t, CryptoComExchange.validate_timeframe t = true ↔
      t ∈ CryptoComExchange.get_supported_timeframes) ∧
    (∀ (http : Http) s ps, FoxbitExchange.get_supported_pairs http = .ok ps →
      FoxbitExchange.validate_symbol http s = .ok (ps.contains s) ∧
        (ps.contains s = true ↔ s ∈ ps)) ∧
    (∀ t, FoxbitExchange.validate_timeframe t = true ↔
      t ∈ FoxbitExchange.get_supported_timeframes) ∧
    (∀ (http : Http) s ps, MercadoBitcoinExchange.get_supported_pairs http = .ok ps →
      MercadoBitcoinExchange.validate_symbol http s = .ok (ps.contains s) ∧
        (ps.contains s = true ↔ s ∈ ps)) ∧
    (∀ t, MercadoBitcoinExchange.validate_timeframe t = true ↔
      t ∈ MercadoBitcoinExchange.get_supported_timeframes) ∧
    (∀ (http : Http) s ps, MEXCExchange.get_supported_pairs http = .ok ps →
      MEXCExchange.validate_symbol http s = .ok (ps.contains s) ∧
        (ps.contains s = true ↔ s ∈ ps)) ∧
    (∀ t, MEXCExchange.validate_timeframe t = true ↔
      t ∈ MEXCExchange.get_supported_timeframes) ∧
    (∀ (http : Http) s ps, NovadaxExchange.get_supported_pairs http = .ok ps →
      NovadaxExchange.validate_symbol http s = .ok (ps.contains s) ∧
        (ps.contains s = true ↔ s ∈ ps)) ∧
    (∀ t, NovadaxExchange.validate_timeframe t = true ↔
      t ∈ NovadaxExchange.get_supported_timeframes) := by
  refine ⟨?_, ?_, ?_, ?_, ?_, ?_, ?_, ?_, ?_, ?_, ?_, ?_, ?_, ?_, ?_, ?_, ?_, ?_⟩ <;>
    first
    | · intro http s ps hp
        refine ⟨?_, by simp⟩
        rw [OKXExchange.validate_symbol, BaseExchange.validate_symbol, ebind_of_ok hp]
    | · intro http s ps hp
        refine ⟨?_, by simp⟩
        rw [BinanceExchange.validate_symbol, BaseExchange.validate_symbol, ebind_of_ok hp]
    | · intro http s ps hp
        refine ⟨?_, by simp⟩
        rw [BitgetExchange.validate_symbol, BaseExchange.validate_symbol, ebind_of_ok hp]
    | · intro http s ps hp
        refine ⟨?_, by simp⟩
        rw [BybitExchange.validate_symbol, BaseExchange.validate_symbol, ebind_of_ok hp]
    | · intro http s ps hp
        refine ⟨?_, by simp⟩
        rw [CryptoComExchange.validate_symbol, BaseExchange.validate_symbol, ebind_of_ok hp]
    | · intro http s ps hp
        refine ⟨?_, by simp⟩
        rw [FoxbitExchange.validate_symbol, BaseExchange.validate_symbol, ebind_of_ok hp]
    | · intro http s ps hp
        refine ⟨?_, by simp⟩
        rw [MercadoBitcoinExchange.validate_symbol, BaseExchange.validate_symbol, ebind_of_ok hp]
    | · intro http s ps hp
        refine ⟨?_, by simp⟩
        rw [MEXCExchange.validate_symbol, BaseExchange.validate_symbol, ebind_of_ok hp]
    | · intro http s ps hp
        refine ⟨?_, by simp⟩
        rw [NovadaxExchange.validate_symbol, BaseExchange.validate_symbol, ebind_of_ok hp]
    | · intro t
        simp [OKXExchange.validate_timeframe, BinanceExchange.validate_timeframe,
          BitgetExchange.validate_timeframe, BybitExchange.validate_timeframe,
          CryptoComExchange.validate_timeframe, FoxbitExchange.validate_timeframe,
          MercadoBitcoinExchange.validate_timeframe, MEXCExchange.validate_timeframe,
          NovadaxExchange.validate_timeframe, BaseExchange.validate_timeframe]

/-- An OKX instrument catalog with a single BRL-quoted entry. -/
def okxCatalogHttp : Http :=
  fun _ => .ok (.obj [("data", .arr
    [.obj [("baseCcy", .str "BTC"), ("quoteCcy", .str "BRL")]])])

/-- Witness for C5: on a concrete catalog, `validate_symbol` answers
membership in the `get_supported_pairs` result. -/
theorem validate_defaults_witness :
    OKXExchange.get_supported_pairs okxCatalogHttp = .ok ["BTC-BRL"] ∧
    OKXExchange.validate_symbol okxCatalogHttp "BTC-BRL" =
      .ok ((["BTC-BRL"] : List String).contains "BTC-BRL") ∧
    ((["BTC-BRL"] : List String).contains "BTC-BRL" = true ↔
      "BTC-BRL" ∈ (["BTC-BRL"] : List String)) := by
  have hp : OKXExchange.get_supported_pairs okxCatalogHttp = .ok ["BTC-BRL"] := rfl
  obtain ⟨h1, h2⟩ := validate_defaults.1 okxCatalogHttp "BTC-BRL" ["BTC-BRL"] hp
  exact ⟨hp, h1, h2⟩

/-- The fields of every successfully parsed Crypto.com row satisfy
`quote_volume = volume * close`. -/
theorem cryptocom_row_fields_rel {cd : JValue} {f : RowFields}
    (h : CryptoComExchange.row_fields cd = .ok f) :
    f.quote_volume = f.volume * f.close := by
  simp only [CryptoComExchange.row_fields] at h
  obtain ⟨_, _, h⟩ := ebind_ok_iff.mp h
  obtain ⟨_, _, h⟩ := ebind_ok_iff.mp h
  obtain ⟨_, _, h⟩ := ebind_ok_iff.mp h
  obtain ⟨_, _, h⟩ := ebind_ok_iff.mp h
  obtain ⟨_, _, h⟩ := ebind_ok_iff.mp h
  obtain ⟨_, _, h⟩ := ebind_ok_iff.mp h
  obtain ⟨_, _, h⟩ := ebind_ok_iff.mp h
  obtain ⟨_, _, h⟩ := ebind_ok_iff.mp h
  obtain ⟨_, _, h⟩ := ebind_ok_iff.mp h
  obtain ⟨_, _, h⟩ := ebind_ok_iff.mp h
  obtain ⟨_, _, h⟩ := ebind_ok_iff.mp h
  obtain ⟨_, _, h⟩ := ebind_ok_iff.mp h
  cases h
  rfl

/-- A Crypto.com candlestick page with one numeric row
(`close = 50`, `volume = 10`). -/
def cryptoCandleRow : JValue :=
  .obj [("t", .num 1625097600000), ("o", .num 40), ("h", .num 60),
        ("l", .num 30), ("c", .num 50), ("v", .num 10)]

def httpCryptoCandles : Http :=
  fun _ => .ok (.obj [("result", .obj [("data", .arr [cryptoCandleRow])])])

/-- **C7.** Every Candle produced by the Crypto.com adapter has
`quote_volume` equal to the product of its `volume` and `close` (it is
computed, not exchange-reported); in particular `volume=10, close=50` yields
`quote_volume = 500` exactly. -/
theorem cryptocom_quote_volume_is_product :
    (∀ (http : Http) s t a b cs, CryptoComExchange.get_candles http s t a b = .ok cs →
      ∀ c ∈ cs, c.quote_volume = some (c.volume * c.close)) ∧
    CryptoComExchange.get_candles httpCryptoCandles "BTC-BRL" "1h" 0 1 =
      .ok [⟨1625097600, 40, 60, 30, 50, 10, "BTC-BRL", "crypto_com", "1h", some 500⟩] := by
  constructor
  · intro http s t a b cs h
    simp only [CryptoComExchange.get_candles] at h
    rw [catchAll_ok_iff] at h
    obtain ⟨_, _, h⟩ := ebind_ok_iff.mp h
    obtain ⟨_, _, h⟩ := ebind_ok_iff.mp h
    obtain ⟨_, _, h⟩ := ebind_ok_iff.mp h
    obtain ⟨_, _, h⟩ := ebind_ok_iff.mp h
    obtain ⟨_, _, h⟩ := ebind_ok_iff.mp h
    refine emap_ok_mem h ?_
    intro cd c hc
    obtain ⟨f, hf, h2⟩ := ebind_ok_iff.mp hc
    cases h2
    simpa [buildCandle] using cryptocom_row_fields_rel hf
  · have hrow : CryptoComExchange.row_fields cryptoCandleRow =
        .ok ⟨1625097600, 40, 60, 30, 50, 10, 500⟩ := by
      show Except.ok (⟨(1625097600000 : ℚ)/1000, (40:ℚ), (60:ℚ), (30:ℚ), (50:ℚ), (10:ℚ),
        (10:ℚ)*50⟩ : RowFields) = _
      norm_num
    have htf : CryptoComExchange._convert_timeframe "1h" = .ok "1h" := rfl
    have hk1 : jGetKey (.obj [("result", .obj [("data", .arr [cryptoCandleRow])])]) "result" =
        .ok (.obj [("data", .arr [cryptoCandleRow])]) := rfl
    have hk2 : jGetKey (.obj [("data", .arr [cryptoCandleRow])]) "data" =
        .ok (.arr [cryptoCandleRow]) := rfl
    simp only [CryptoComExchange.get_candles, httpCryptoCandles,
      CryptoComExchange._make_request, htf, hk1, hk2, jIter, emap, ebind, hrow,
      catchAll, buildCandle]

/-- Witness for C7: the concrete Crypto.com call succeeds and its candle has
`quote_volume = volume * close`. -/
theorem cryptocom_quote_volume_is_product_witness :
    CryptoComExchange.get_candles httpCryptoCandles "BTC-BRL" "1h" 0 1 =
      .ok [⟨1625097600, 40, 60, 30, 50, 10, "BTC-BRL", "crypto_com", "1h", some 500⟩] ∧
    ∀ c ∈ [(⟨1625097600, 40, 60, 30, 50, 10, "BTC-BRL", "crypto_com", "1h",
        some 500⟩ : Candle)], c.quote_volume = some (c.volume * c.close) :=
  ⟨cryptocom_quote_volume_is_product.2,
   cryptocom_quote_volume_is_product.1 httpCryptoCandles "BTC-BRL" "1h" 0 1 _
     cryptocom_quote_volume_is_product.2⟩

/-- **C8.** Serializing a Candle with `to_dict` and reading back
`open/high/low/close/volume` yields the original values exactly; the mapping
always has a `quote_volume` key holding the original value or null when
unset, and the timestamp is rendered as the ISO-8601 string. -/
theorem to_dict_round_trip (c : Candle) :
    c.to_dict.lookup "open" = some (.num c.«open») ∧
    c.to_dict.lookup "high" = some (.num c.high) ∧
    c.to_dict.lookup "low" = some (.num c.low) ∧
    c.to_dict.lookup "close" = some (.num c.close) ∧
    c.to_dict.lookup "volume" = some (.num c.volume) ∧
    c.to_dict.lookup "timestamp" = some (.str (isoformat c.timestamp)) ∧
    ((c.quote_volume = none ∧ c.to_dict.lookup "quote_volume" = some .null) ∨
     (∃ q, c.quote_volume = some q ∧ c.to_dict.lookup "quote_volume" = some (.num q))) := by
  refine ⟨rfl, rfl, rfl, rfl, rfl, rfl, ?_⟩
  cases hq : c.quote_volume with
  | none =>
      left
      refine ⟨rfl, ?_⟩
      simp only [Candle.to_dict, hq]
      rfl
  | some q =>
      right
      refine ⟨q, rfl, ?_⟩
      simp only [Candle.to_dict, hq]
      rfl

/-- **C9.** Each adapter's symbol translation is the documented pure
strategy: Binance, Bitget, Bybit and MEXC strip the hyphen and upper-case
(one and the same function); Foxbit strips and lower-cases; Crypto.com and
Novadax replace the hyphen with an underscore; OKX and Mercado Bitcoin pass
the symbol through unchanged.  Determinism is inherent: each is a pure
function of the input string. -/
theorem convert_symbol_strategies :
    (∀ s, BinanceExchange._convert_symbol s = pyUpper (pyReplace s "-" "")) ∧
    (∀ s, BitgetExchange._convert_symbol s = BinanceExchange._convert_symbol s) ∧
    (∀ s, BybitExchange._convert_symbol s = BinanceExchange._convert_symbol s) ∧
    (∀ s, MEXCExchange._convert_symbol s = BinanceExchange._convert_symbol s) ∧
    (∀ s, FoxbitExchange._convert_symbol s = pyLower (pyReplace s "-" "")) ∧
    (∀ s, CryptoComExchange._convert_symbol s = pyReplace s "-" "_") ∧
    (∀ s, NovadaxExchange._convert_symbol s = CryptoComExchange._convert_symbol s) ∧
    (∀ s, OKXExchange._convert_symbol s = s) ∧
    (∀ s, MercadoBitcoinExchange._convert_symbol s = s) ∧
    BinanceExchange._convert_symbol "btc-Brl" = "BTCBRL" ∧
    BybitExchange._convert_symbol "BTC-BRL" = "BTCBRL" ∧
    BitgetExchange._convert_symbol "ETH-BRL" = "ETHBRL" ∧
    MEXCExchange._convert_symbol "sol-brl" = "SOLBRL" ∧
    FoxbitExchange._convert_symbol "BTC-BRL" = "btcbrl" ∧
    CryptoComExchange._convert_symbol "BTC-BRL" = "BTC_BRL" ∧
    NovadaxExchange._convert_symbol "ETH-BRL" = "ETH_BRL" ∧
    OKXExchange._convert_symbol "BTC-BRL" = "BTC-BRL" ∧
    MercadoBitcoinExchange._convert_symbol "BTC-BRL" = "BTC-BRL" :=
  ⟨fun _ => rfl, fun _ => rfl, fun _ => rfl, fun _ => rfl, fun _ => rfl,
   fun _ => rfl, fun _ => rfl, fun _ => rfl, fun _ => rfl,
   rfl, rfl, rfl, rfl, rfl, rfl, rfl, rfl, rfl⟩

/-- **C10.** Mercado Bitcoin's `get_candles` builds one Candle per element of
the response's `"t"` array (each of `t,o,h,l,c,v` defaults to `[]` when
absent): a payload without `"t"` yields `.ok []` with no error; a non-empty
`"t"` with a missing parallel array (`"o"` absent here) fails with the
adapter error (the `IndexError` is caught and wrapped). -/
theorem mercado_parallel_arrays :
    (∀ (http : Http) s t a b (fields : List (String × JValue)),
      http ⟨"GET", "https://api.mercadobitcoin.net/api/v4/" ++ "candles",
        MercadoBitcoinExchange.candles_params (MercadoBitcoinExchange._convert_symbol s)
          (MercadoBitcoinExchange._convert_timeframe t) (truncRat a) (truncRat b)⟩ =
        .ok (.obj fields) →
      fields.lookup "t" = none →
      MercadoBitcoinExchange.get_candles http s t a b = .ok []) ∧
    (∀ (http : Http) s t a b (fields : List (String × JValue)) ts cs,
      http ⟨"GET", "https://api.mercadobitcoin.net/api/v4/" ++ "candles",
        MercadoBitcoinExchange.candles_params (MercadoBitcoinExchange._convert_symbol s)
          (MercadoBitcoinExchange._convert_timeframe t) (truncRat a) (truncRat b)⟩ =
        .ok (.obj fields) →
      fields.lookup "t" = some (.arr ts) →
      MercadoBitcoinExchange.get_candles http s t a b = .ok cs →
      cs.length = ts.length) ∧
    (∀ (http : Http) s t a b (fields : List (String × JValue)) ts,
      http ⟨"GET", "https://api.mercadobitcoin.net/api/v4/" ++ "candles",
        MercadoBitcoinExchange.candles_params (MercadoBitcoinExchange._convert_symbol s)
          (MercadoBitcoinExchange._convert_timeframe t) (truncRat a) (truncRat b)⟩ =
        .ok (.obj fields) →
      fields.lookup "t" = some (.arr ts) →
      ts ≠ [] →
      fields.lookup "o" = none →
      ∃ m, MercadoBitcoinExchange.get_candles http s t a b =
        .error (.apiError "mercado_bitcoin" m)) := by
  refine ⟨?_, ?_, ?_⟩
  · intro http s t a b fields hhttp hT
    simp only [MercadoBitcoinExchange.get_candles, MercadoBitcoinExchange._make_request,
      hhttp, jGet, hT, pyLen, Option.getD, List.range_zero, emap, ebind, catchAll]
  · intro http s t a b fields ts cs hhttp hT hok
    simp only [MercadoBitcoinExchange.get_candles] at hok
    rw [catchAll_ok_iff] at hok
    simp only [MercadoBitcoinExchange._make_request, hhttp, jGet, hT, pyLen,
      ebind, Option.getD] at hok
    rw [emap_ok_length hok]
    exact List.length_range _
  · intro http s t a b fields ts hhttp hT hts hO
    cases ts with
    | nil => exact absurd rfl hts
    | cons t0 ts' =>
        cases hpi : pyInt t0 with
        | error e =>
            refine ⟨"Error getting candles from Mercado Bitcoin: " ++ excText e, ?_⟩
            simp only [MercadoBitcoinExchange.get_candles,
              MercadoBitcoinExchange._make_request, hhttp, jGet, hT, hO, pyLen,
              Option.getD, List.length_cons, List.range_succ_eq_map, emap, ebind,
              MercadoBitcoinExchange.row_fields, jIndex, List.get?, hpi, catchAll,
              excText]
        | ok i =>
            refine ⟨"Error getting candles from Mercado Bitcoin: " ++
              excText .indexError, ?_⟩
            simp only [MercadoBitcoinExchange.get_candles,
              MercadoBitcoinExchange._make_request, hhttp, jGet, hT, hO, pyLen,
              Option.getD, List.length_cons, List.range_succ_eq_map, emap, ebind,
              MercadoBitcoinExchange.row_fields, jIndex, List.get?, hpi, catchAll,
              excText]

/-- Witness for C10: a payload without `"t"` yields an empty candle list; a
one-element `"t"` with no `"o"` array fails with the Mercado Bitcoin error. -/
theorem mercado_parallel_arrays_witness :
    MercadoBitcoinExchange.get_candles (fun _ => .ok (.obj [])) "BTC-BRL" "1h" 0 1 = .ok [] ∧
    ∃ m, MercadoBitcoinExchange.get_candles (fun _ => .ok (.obj [("t", .arr [.num 1])]))
      "BTC-BRL" "1h" 0 1 = .error (.apiError "mercado_bitcoin" m) :=
  ⟨mercado_parallel_arrays.1 _ "BTC-BRL" "1h" 0 1 [] rfl rfl,
   mercado_parallel_arrays.2.2 _ "BTC-BRL" "1h" 0 1 [("t", .arr [.num 1])] [.num 1]
     rfl rfl (by simp) rfl⟩
